import Mathlib

/-!
Shallow embedding of the tournament progression engine of the
marymont-ping-pong AWS-Lambda backend (src/lambda/*.py), together with
proofs about the behaviour the design document ascribes to it.

Conventions of the embedding:
* Python `int` is modelled as `Int`; JSON strings as `String`.
* A JSON value that may be absent or `null` is modelled as `Option _`.
* The S3 bucket is modelled as explicit store structures; a
  read/modify/write cycle becomes a pure function `payload → store →
  response × store`.  `time.strftime` (the `_now()` helpers) is modelled
  by threading an abstract `now : String` parameter.
* The stored win percentage `round(wins / matchesPlayed, 3)` is always
  an exact number of thousandths; it is modelled by that integer number
  of thousandths (`winPercentage` below is the float's value times 1000),
  an order- and equality-preserving representation, with CPython's
  round-half-to-even tie rule; no claim below depends on the tie
  behaviour of the rounding.
-/

namespace PingPong

/-- One set of a match: the two scores, after the `int(...)` normalisation
the Python code applies to `s.get("p1", 0)` / `s.get("p2", 0)`. -/
structure SetScore where
  p1 : Int
  p2 : Int
deriving DecidableEq, Repr

/-- Identity resolved by `auth.py` and handed to every handler. -/
structure AuthUser where
  sub : String
  role : String
  playerId : Option String := none
deriving DecidableEq, Repr

/-- An HTTP response, reduced to the fields the claims mention: the status
code and, for error responses, the `error` message of the JSON body. -/
structure Resp where
  code : Nat
  error : Option String := none
deriving DecidableEq, Repr

namespace Matches

/-- Embeds `matches.py` `_valid_set`: the higher score is at least 11 and the
absolute difference is at least 2. -/
def _valid_set (a b : Int) : Bool :=
  decide (11 ≤ max a b ∧ 2 ≤ (a - b).natAbs)

/-- Embeds `matches.py` `_compute_winner`: count valid-set wins for each side and
return `some "p1"` / `some "p2"` / `none`. -/
def _compute_winner (sets : List SetScore) : Option String :=
  let w := sets.foldl
    (fun (w : Nat × Nat) s =>
      if _valid_set s.p1 s.p2 then
        if s.p2 < s.p1 then (w.1 + 1, w.2) else (w.1, w.2 + 1)
      else w)
    (0, 0)
  if w.1 ≥ 3 then some "p1" else if w.2 ≥ 3 then some "p2" else none

/-- Number of valid sets won by side p1 (the `w1` counter of
`_compute_winner`). -/
def p1SetWins (sets : List SetScore) : Nat :=
  sets.countP (fun s => _valid_set s.p1 s.p2 && decide (s.p2 < s.p1))

/-- Number of valid sets won by side p2 (the `w2` counter of
`_compute_winner`). -/
def p2SetWins (sets : List SetScore) : Nat :=
  sets.countP (fun s => _valid_set s.p1 s.p2 && decide (s.p1 ≤ s.p2))

end Matches

namespace Bracket

/-- Embeds `bracket.py` `_valid_set` (triplicated in the sources). -/
def _valid_set (a b : Int) : Bool :=
  decide (11 ≤ max a b ∧ 2 ≤ (a - b).natAbs)

/-- Embeds `bracket.py` `_winner_side`. -/
def _winner_side (sets : List SetScore) : Option String :=
  let w := sets.foldl
    (fun (w : Nat × Nat) s =>
      if _valid_set s.p1 s.p2 then
        if s.p2 < s.p1 then (w.1 + 1, w.2) else (w.1, w.2 + 1)
      else w)
    (0, 0)
  if w.1 ≥ 3 then some "p1" else if w.2 ≥ 3 then some "p2" else none

end Bracket

namespace Standings

/-- Embeds `standings.py` `_valid_set` (triplicated in the sources). -/
def _valid_set (a b : Int) : Bool :=
  decide (11 ≤ max a b ∧ 2 ≤ (a - b).natAbs)

end Standings

-- Auxiliary facts about `_compute_winner`'s tally.

/-- The fold inside `_compute_winner` computes exactly the two `countP`
tallies. -/
theorem compute_winner_fold_eq (sets : List SetScore) :
    sets.foldl
      (fun (w : Nat × Nat) s =>
        if Matches._valid_set s.p1 s.p2 then
          if s.p2 < s.p1 then (w.1 + 1, w.2) else (w.1, w.2 + 1)
        else w)
      (0, 0)
    = (Matches.p1SetWins sets, Matches.p2SetWins sets) := by
  suffices h : ∀ (w : Nat × Nat),
      sets.foldl
        (fun (w : Nat × Nat) s =>
          if Matches._valid_set s.p1 s.p2 then
            if s.p2 < s.p1 then (w.1 + 1, w.2) else (w.1, w.2 + 1)
          else w)
        w
      = (w.1 + Matches.p1SetWins sets, w.2 + Matches.p2SetWins sets) by
    simpa using h (0, 0)
  induction sets with
  | nil => intro w; simp [Matches.p1SetWins, Matches.p2SetWins]
  | cons s rest ih =>
    intro w
    simp only [List.foldl_cons, Matches.p1SetWins, Matches.p2SetWins,
      List.countP_cons]
    by_cases hv : Matches._valid_set s.p1 s.p2 = true
    · by_cases hgt : s.p2 < s.p1
      · simp [hv, hgt, not_le.mpr hgt, ih, Matches.p1SetWins, Matches.p2SetWins]
        all_goals omega
      · simp [hv, hgt, not_lt.mp hgt, ih, Matches.p1SetWins, Matches.p2SetWins]
        all_goals omega
    · simp [hv, ih, Matches.p1SetWins, Matches.p2SetWins]

/-- The two per-side tallies never exceed the number of sets played. -/
theorem setWins_le_length (sets : List SetScore) :
    Matches.p1SetWins sets + Matches.p2SetWins sets ≤ sets.length := by
  induction sets with
  | nil => simp [Matches.p1SetWins, Matches.p2SetWins]
  | cons s rest ih =>
    simp only [Matches.p1SetWins, Matches.p2SetWins, List.countP_cons,
      List.length_cons] at *
    by_cases hv : Matches._valid_set s.p1 s.p2 = true
    · by_cases hgt : s.p2 < s.p1
      · simp [hv, hgt, not_le.mpr hgt]
        all_goals omega
      · simp [hv, hgt, not_lt.mp hgt]
        all_goals omega
    · simp [hv]
      all_goals omega

/-- Case characterisation of `_compute_winner` in terms of the tallies. -/
theorem compute_winner_cases (sets : List SetScore) :
    Matches._compute_winner sets
      = (if Matches.p1SetWins sets ≥ 3 then some "p1"
         else if Matches.p2SetWins sets ≥ 3 then some "p2" else none) := by
  unfold Matches._compute_winner
  rw [compute_winner_fold_eq]

/- ===== C5: ScoreEvaluator characterisation ===== -/

/-- Claim C5. For any input of exactly 5 sets, `_compute_winner` returns
`none` unless one side's count of valid-set wins is at least 3, and
returns exactly one of p1 or p2 otherwise — it is impossible for both
sides to qualify. -/
theorem c5_evaluate_winner_characterisation (sets : List SetScore)
    (h : sets.length = 5) :
    (Matches._compute_winner sets = none
      ↔ Matches.p1SetWins sets < 3 ∧ Matches.p2SetWins sets < 3)
  ∧ (3 ≤ Matches.p1SetWins sets
      → Matches._compute_winner sets = some "p1" ∧ Matches.p2SetWins sets < 3)
  ∧ (3 ≤ Matches.p2SetWins sets
      → Matches._compute_winner sets = some "p2" ∧ Matches.p1SetWins sets < 3) := by
  have hle := setWins_le_length sets
  rw [h] at hle
  have hcw := compute_winner_cases sets
  by_cases h1 : Matches.p1SetWins sets ≥ 3
  · have h2 : Matches.p2SetWins sets < 3 := by omega
    rw [if_pos h1] at hcw
    refine ⟨?_, fun _ => ⟨hcw, h2⟩, fun hh => absurd hh (by omega)⟩
    simp only [hcw]
    constructor
    · intro he; exact absurd he (by simp)
    · intro ⟨ha, _⟩; omega
  · by_cases h2 : Matches.p2SetWins sets ≥ 3
    · rw [if_neg h1, if_pos h2] at hcw
      refine ⟨?_, fun hh => absurd hh h1, fun _ => ⟨hcw, by omega⟩⟩
      simp only [hcw]
      constructor
      · intro he; exact absurd he (by simp)
      · intro ⟨_, hb⟩; omega
    · rw [if_neg h1, if_neg h2] at hcw
      exact ⟨⟨fun _ => ⟨by omega, by omega⟩, fun _ => hcw⟩,
        fun hh => absurd hh h1, fun hh => absurd hh h2⟩

/-- Witness for C5 at a concrete 5-set input (p1 wins three valid sets). -/
theorem c5_evaluate_winner_characterisation_witness :
    (([⟨11, 0⟩, ⟨11, 0⟩, ⟨11, 0⟩, ⟨0, 0⟩, ⟨0, 0⟩] : List SetScore).length = 5)
  ∧ ((Matches._compute_winner [⟨11, 0⟩, ⟨11, 0⟩, ⟨11, 0⟩, ⟨0, 0⟩, ⟨0, 0⟩] = none
      ↔ Matches.p1SetWins [⟨11, 0⟩, ⟨11, 0⟩, ⟨11, 0⟩, ⟨0, 0⟩, ⟨0, 0⟩] < 3
        ∧ Matches.p2SetWins [⟨11, 0⟩, ⟨11, 0⟩, ⟨11, 0⟩, ⟨0, 0⟩, ⟨0, 0⟩] < 3)
    ∧ (3 ≤ Matches.p1SetWins [⟨11, 0⟩, ⟨11, 0⟩, ⟨11, 0⟩, ⟨0, 0⟩, ⟨0, 0⟩]
        → Matches._compute_winner [⟨11, 0⟩, ⟨11, 0⟩, ⟨11, 0⟩, ⟨0, 0⟩, ⟨0, 0⟩]
            = some "p1"
          ∧ Matches.p2SetWins [⟨11, 0⟩, ⟨11, 0⟩, ⟨11, 0⟩, ⟨0, 0⟩, ⟨0, 0⟩] < 3)
    ∧ (3 ≤ Matches.p2SetWins [⟨11, 0⟩, ⟨11, 0⟩, ⟨11, 0⟩, ⟨0, 0⟩, ⟨0, 0⟩]
        → Matches._compute_winner [⟨11, 0⟩, ⟨11, 0⟩, ⟨11, 0⟩, ⟨0, 0⟩, ⟨0, 0⟩]
            = some "p2"
          ∧ Matches.p1SetWins [⟨11, 0⟩, ⟨11, 0⟩, ⟨11, 0⟩, ⟨0, 0⟩, ⟨0, 0⟩] < 3)) :=
  ⟨by decide, c5_evaluate_winner_characterisation _ (by decide)⟩

/- ===== C10: the duplicated scoring functions agree ===== -/

/-- Claim C10. The winner-evaluation logic duplicated across the modules is
one and the same function: `matches.py`'s `_compute_winner` and
`bracket.py`'s `_winner_side` agree on every input (in particular on
every 5-set input), and the three copies of `_valid_set` in
`matches.py`, `bracket.py` and `standings.py` agree on every score
pair. -/
theorem c10_duplicated_scoring_logic_agrees :
    (∀ sets : List SetScore,
        Matches._compute_winner sets = Bracket._winner_side sets)
  ∧ (∀ a b : Int,
        Matches._valid_set a b = Bracket._valid_set a b
      ∧ Bracket._valid_set a b = Standings._valid_set a b) :=
  ⟨fun _ => rfl, fun _ _ => ⟨rfl, rfl⟩⟩

/- ===== Standings data model and ranking (for C1, C4, C9) ===== -/

/-- Computes `round(a / b)` for integers with `0 < b`: nearest, ties to even
(CPython's rounding mode).  `round(wins / matchesPlayed, 3)` is modelled
as `pyRoundDiv (1000 * wins) matchesPlayed` thousandths. -/
def pyRoundDiv (a b : Int) : Int :=
  let f := Int.fdiv a b
  let r2 := 2 * (a - f * b)
  if r2 < b then f
  else if b < r2 then f + 1
  else if f % 2 = 0 then f else f + 1

/-- A `StandingsRow` as built by `standings.py` (`_initialize_player_stats`
plus the `rank` key that `_rank_players` adds). -/
structure PlayerStats where
  playerId : String
  matchesPlayed : Int := 0
  wins : Int := 0
  losses : Int := 0
  setsWon : Int := 0
  setsLost : Int := 0
  pointsWon : Int := 0
  pointsLost : Int := 0
  setDifference : Int := 0
  pointDifference : Int := 0
  winPercentage : Int := 0
  rank : Option Int := none
deriving DecidableEq, Repr

namespace Standings

/-- Embeds `standings.py` `_initialize_player_stats`. -/
def _initialize_player_stats (pid : String) : PlayerStats :=
  { playerId := pid }

/-- Embeds `standings.py` `_update_player_stats` (pure version: returns the
updated row instead of mutating it). -/
def _update_player_stats (s : PlayerStats)
    (sets_for sets_against points_for points_against : Int) (won : Bool) :
    PlayerStats :=
  let matchesPlayed := s.matchesPlayed + 1
  let setsWon := s.setsWon + sets_for
  let setsLost := s.setsLost + sets_against
  let pointsWon := s.pointsWon + points_for
  let pointsLost := s.pointsLost + points_against
  let wins := if won then s.wins + 1 else s.wins
  let losses := if won then s.losses else s.losses + 1
  { s with
    matchesPlayed := matchesPlayed
    setsWon := setsWon
    setsLost := setsLost
    pointsWon := pointsWon
    pointsLost := pointsLost
    setDifference := setsWon - setsLost
    pointDifference := pointsWon - pointsLost
    wins := wins
    losses := losses
    winPercentage :=
      if 0 < matchesPlayed then pyRoundDiv (1000 * wins) matchesPlayed
      else s.winPercentage }

/-- The negated sort key used by `_rank_players`
(`(-wins, -setDifference, -pointDifference, -winPercentage)`), packaged
as a lexicographically ordered tuple: Python compares key tuples
lexicographically. -/
def lexKey (p : PlayerStats) : Int ×ₗ (Int ×ₗ (Int ×ₗ Int)) :=
  toLex (-p.wins,
    toLex (-p.setDifference, toLex (-p.pointDifference, -p.winPercentage)))

/-- The comparison `list.sort` performs between two rows. -/
def statLe (p q : PlayerStats) : Prop := lexKey p ≤ lexKey q

instance : DecidableRel statLe :=
  fun p q => inferInstanceAs (Decidable (lexKey p ≤ lexKey q))

instance : IsTotal PlayerStats statLe :=
  ⟨fun a b => le_total (lexKey a) (lexKey b)⟩

instance : IsTrans PlayerStats statLe :=
  ⟨fun _ _ _ hab hbc => le_trans hab hbc⟩

/-- The (non-negated) ranking tuple of a row, as named by the design
document: `(wins, setDifference, pointDifference, winPercentage)`. -/
def origKey (p : PlayerStats) : Int × Int × Int × Int :=
  (p.wins, p.setDifference, p.pointDifference, p.winPercentage)

/-- The rank-assignment loop of `_rank_players`
(`enumerate(players, 1)`). -/
def assignRanks : Int → List PlayerStats → List PlayerStats
  | _, [] => []
  | i, p :: ps => { p with rank := some i } :: assignRanks (i + 1) ps

/-- Embeds `standings.py` `_rank_players` (pure version).  Python's `list.sort`
is a stable ascending sort by the key; `List.insertionSort` with the same
total preorder is stable in the same sense and therefore computes the
same list. -/
def _rank_players (players : List PlayerStats) : List PlayerStats :=
  assignRanks 1 (List.insertionSort statLe players)

end Standings

/-- Equal ranking tuples give equal (negated) sort keys. -/
theorem lexKey_eq_of_origKey_eq {a b : PlayerStats}
    (h : Standings.origKey a = Standings.origKey b) :
    Standings.lexKey a = Standings.lexKey b := by
  have h1 : a.wins = b.wins := congrArg (fun t => t.1) h
  have h2 : a.setDifference = b.setDifference := congrArg (fun t => t.2.1) h
  have h3 : a.pointDifference = b.pointDifference := congrArg (fun t => t.2.2.1) h
  have h4 : a.winPercentage = b.winPercentage := congrArg (fun t => t.2.2.2) h
  unfold Standings.lexKey
  rw [h1, h2, h3, h4]

/-- The rank-assignment loop puts `i + position` into each row. -/
theorem assignRanks_map_rank (l : List PlayerStats) : ∀ i : Int,
    (Standings.assignRanks i l).map (·.rank)
      = (List.range l.length).map (fun k : ℕ => some (i + (k : Int))) := by
  induction l with
  | nil => intro i; simp [Standings.assignRanks]
  | cons p ps ih =>
    intro i
    have hhead : (Standings.assignRanks i (p :: ps)).map (·.rank)
        = some i :: (Standings.assignRanks (i + 1) ps).map (·.rank) := rfl
    rw [hhead, ih (i + 1), List.length_cons, List.range_succ_eq_map,
      List.map_cons, List.map_map]
    refine congrArg₂ _ (by simp) (List.map_congr_left fun k _ => ?_)
    simp only [Function.comp_apply]
    congr 1
    push_cast
    ring

/- ===== C9: the standings sort is stable and ranks by position ===== -/

/-- Claim C9. `_rank_players` sorts rows descending by the tuple
`(wins, setDifference, pointDifference, winPercentage)` — i.e. ascending
by the negated key `statLe` it passes to `list.sort` — with no further
tiebreaker: rows with equal tuples keep their relative input order
(stability), and `rank` is then assigned `1..N` by sorted position. -/
theorem c9_rank_players_stable_sort (l : List PlayerStats) :
    List.Sorted Standings.statLe (List.insertionSort Standings.statLe l)
  ∧ (∀ a b : PlayerStats, Standings.origKey a = Standings.origKey b →
      List.Sublist [a, b] l →
      List.Sublist [a, b] (List.insertionSort Standings.statLe l))
  ∧ ((Standings._rank_players l).map (·.rank)
      = (List.range l.length).map (fun k : ℕ => some (1 + (k : Int)))) := by
  refine ⟨List.sorted_insertionSort Standings.statLe l, ?_, ?_⟩
  · intro a b hk hsub
    exact List.pair_sublist_insertionSort
      (le_of_eq (lexKey_eq_of_origKey_eq hk)) hsub
  · unfold Standings._rank_players
    rw [assignRanks_map_rank, List.length_insertionSort]

/-- Witness for C9's stability clause on a concrete two-row tie: two
all-zero rows keep their input order and receive ranks 1 and 2. -/
theorem c9_rank_players_stable_sort_witness :
    Standings.origKey { playerId := "a" } = Standings.origKey { playerId := "b" }
  ∧ List.Sublist [{ playerId := "a" }, ({ playerId := "b" } : PlayerStats)]
      [{ playerId := "a" }, { playerId := "b" }]
  ∧ List.Sublist [{ playerId := "a" }, ({ playerId := "b" } : PlayerStats)]
      (List.insertionSort Standings.statLe
        [{ playerId := "a" }, { playerId := "b" }])
  ∧ (Standings._rank_players [{ playerId := "a" }, { playerId := "b" }]).map
      (·.rank) = [some 1, some 2] :=
  ⟨rfl, List.Sublist.refl _,
    (c9_rank_players_stable_sort [{ playerId := "a" }, { playerId := "b" }]).2.1
      _ _ rfl (List.Sublist.refl _),
    by have h := (c9_rank_players_stable_sort
        [{ playerId := "a" }, { playerId := "b" }]).2.2
       simpa using h⟩

/- ===== Match records and the standings aggregation (C1) ===== -/

/-- The `advancesTo` reference of a `matches.py` match:
`{"matchId": <numeric id>, "as": "p1"|"p2"}`. -/
structure AdvRefG where
  matchId : Int
  as : String
deriving DecidableEq, Repr

/-- A match record as stored in `data/{category}/matches.json`
(`matches.py` schema: numeric `id`, `type`, `group`/`round`). -/
structure MatchG where
  id : Int
  type : String := ""
  p1 : String := ""
  p2 : String := ""
  sets : List SetScore := []
  winner : Option String := none
  status : String := ""
  group : Option String := none
  round : Option Int := none
  scheduledAt : Option String := none
  advancesTo : Option AdvRefG := none
  updatedBy : Option String := none
deriving DecidableEq, Repr

/-- A user account from `data/accounts.json`, restricted to the fields
`standings.py` consults. -/
structure Account where
  username : String := ""
  name : String := ""
  surname : String := ""
  role : String := ""
  category : String := ""
  playerId : Option String := none
deriving DecidableEq, Repr

namespace Standings

/-- Embeds `standings.py` `_get_all_players_in_category`, reduced to the player
ids (the only account field `compute_standings` goes on to use).
`playerId is not None` becomes `isSome`; `str(playerId)` is the identity
because ids are modelled as strings. -/
def _get_all_players_in_category (accounts : List Account)
    (category : String) : List String :=
  accounts.filterMap (fun a =>
    if (a.role = "player" ∨ a.role = "admin") ∧ a.category = category then
      a.playerId
    else none)

/-- The `player_stats` dict built keyed by playerId in account order:
Python dict insertion preserves first-insertion order, and re-inserting a
duplicate id stores an identical freshly initialised row, so it equals
keeping the first. -/
def initStats (pids : List String) : List PlayerStats :=
  pids.foldl
    (fun acc pid =>
      if acc.any (·.playerId = pid) then acc
      else acc ++ [_initialize_player_stats pid])
    []

/-- The per-match set/point tally loop of `compute_standings`:
`(p1_sets, p2_sets, p1_points, p2_points)`. -/
def setTotals (sets : List SetScore) : Int × Int × Int × Int :=
  sets.foldl
    (fun t s =>
      let p1_points := t.2.2.1 + s.p1
      let p2_points := t.2.2.2 + s.p2
      if _valid_set s.p1 s.p2 then
        if s.p2 < s.p1 then (t.1 + 1, t.2.1, p1_points, p2_points)
        else (t.1, t.2.1 + 1, p1_points, p2_points)
      else (t.1, t.2.1, p1_points, p2_points))
    (0, 0, 0, 0)

/-- Dict assignment `player_stats[pid] = f(player_stats[pid])`: keys are
unique in `initStats`'s output, so updating every row with that id equals
updating the single entry. -/
def updateStats (stats : List PlayerStats) (pid : String)
    (f : PlayerStats → PlayerStats) : List PlayerStats :=
  stats.map (fun s => if s.playerId = pid then f s else s)

/-- The body of `compute_standings`' per-finished-match loop. -/
def processMatch (stats : List PlayerStats) (m : MatchG) : List PlayerStats :=
  let p1_id := m.p1
  let p2_id := m.p2
  let winner := m.winner
  if ¬ (stats.any (·.playerId = p1_id)) ∨ ¬ (stats.any (·.playerId = p2_id))
  then stats
  else
    let t := setTotals m.sets
    let p1_won : Bool := winner = some p1_id
    let p2_won : Bool := winner = some p2_id
    let stats1 := updateStats stats p1_id
      (fun s => _update_player_stats s t.1 t.2.1 t.2.2.1 t.2.2.2 p1_won)
    updateStats stats1 p2_id
      (fun s => _update_player_stats s t.2.1 t.1 t.2.2.2 t.2.2.1 p2_won)

/-- The aggregation phase of `compute_standings`: fold the per-match loop
over the finished matches, starting from zeroed rows. -/
def aggregate (pids : List String) (matchList : List MatchG) :
    List PlayerStats :=
  (matchList.filter (·.status = "final")).foldl processMatch (initStats pids)

end Standings

/-- The persisted `data/{category}/standings.json` document. -/
structure StandingsDoc where
  players : List PlayerStats
  updatedAt : String
  version : Int
deriving DecidableEq, Repr

namespace Standings

/-- Embeds `standings.py` `compute_standings`, as a pure read/modify/write of
the category's standings document.  `accounts` and `matches` are the two
read-only documents it loads; the returned document is what `_put_json`
persists (the old document `old` is returned unchanged on the error
paths, which perform no write).  The silent standings recomputation
triggered from `matches.py` is this same function. -/
def compute_standings (category : String) (authUser : Option AuthUser)
    (accounts : List Account) (matchList : List MatchG)
    (old : StandingsDoc) (now : String) : Resp × StandingsDoc :=
  match authUser with
  | none => (⟨403, some "Forbidden"⟩, old)
  | some u =>
    if u.role ≠ "admin" then (⟨403, some "Forbidden"⟩, old)
    else if ¬ (category = "man" ∨ category = "woman") then
      (⟨400, some "category must be man|woman"⟩, old)
    else
      let players := _get_all_players_in_category accounts category
      if players = [] then (⟨200, none⟩, ⟨[], now, 1⟩)
      else (⟨200, none⟩, ⟨_rank_players (aggregate players matchList), now, 1⟩)

end Standings

/- ===== C1: win/loss accounting in the standings computation ===== -/

/-- Claim C1, amended. In the standings computation, a finished match whose
two sides are registered updates both rows: each side receives the match's
set and point totals; when `winner` equals `p1` (and the sides differ) p1
gains a win and p2 a loss, and symmetrically when `winner` equals `p2` —
but a finished match whose `winner` is unset records a loss (and
no win) for **both** competitors, because each side's `won` flag is false
and `_update_player_stats` counts every non-won appearance as a loss. -/
theorem c1_standings_win_loss_accounting :
    (∀ (pids : List String) (ml : List MatchG),
        Standings.aggregate pids ml
          = (ml.filter (·.status = "final")).foldl Standings.processMatch
              (Standings.initStats pids))
  ∧ (∀ (stats : List PlayerStats) (m : MatchG),
        stats.any (·.playerId = m.p1) → stats.any (·.playerId = m.p2) →
        m.winner = none →
        Standings.processMatch stats m
          = Standings.updateStats
              (Standings.updateStats stats m.p1 (fun s =>
                Standings._update_player_stats s (Standings.setTotals m.sets).1
                  (Standings.setTotals m.sets).2.1
                  (Standings.setTotals m.sets).2.2.1
                  (Standings.setTotals m.sets).2.2.2 false))
              m.p2 (fun s =>
                Standings._update_player_stats s (Standings.setTotals m.sets).2.1
                  (Standings.setTotals m.sets).1
                  (Standings.setTotals m.sets).2.2.2
                  (Standings.setTotals m.sets).2.2.1 false))
  ∧ (∀ (stats : List PlayerStats) (m : MatchG),
        stats.any (·.playerId = m.p1) → stats.any (·.playerId = m.p2) →
        m.winner = some m.p1 → m.p2 ≠ m.p1 →
        Standings.processMatch stats m
          = Standings.updateStats
              (Standings.updateStats stats m.p1 (fun s =>
                Standings._update_player_stats s (Standings.setTotals m.sets).1
                  (Standings.setTotals m.sets).2.1
                  (Standings.setTotals m.sets).2.2.1
                  (Standings.setTotals m.sets).2.2.2 true))
              m.p2 (fun s =>
                Standings._update_player_stats s (Standings.setTotals m.sets).2.1
                  (Standings.setTotals m.sets).1
                  (Standings.setTotals m.sets).2.2.2
                  (Standings.setTotals m.sets).2.2.1 false))
  ∧ (∀ (stats : List PlayerStats) (m : MatchG),
        stats.any (·.playerId = m.p1) → stats.any (·.playerId = m.p2) →
        m.winner = some m.p2 → m.p1 ≠ m.p2 →
        Standings.processMatch stats m
          = Standings.updateStats
              (Standings.updateStats stats m.p1 (fun s =>
                Standings._update_player_stats s (Standings.setTotals m.sets).1
                  (Standings.setTotals m.sets).2.1
                  (Standings.setTotals m.sets).2.2.1
                  (Standings.setTotals m.sets).2.2.2 false))
              m.p2 (fun s =>
                Standings._update_player_stats s (Standings.setTotals m.sets).2.1
                  (Standings.setTotals m.sets).1
                  (Standings.setTotals m.sets).2.2.2
                  (Standings.setTotals m.sets).2.2.1 true))
  ∧ (∀ (s : PlayerStats) (sf sa pf pa : Int),
        ((Standings._update_player_stats s sf sa pf pa true).wins = s.wins + 1
          ∧ (Standings._update_player_stats s sf sa pf pa true).losses
              = s.losses)
      ∧ ((Standings._update_player_stats s sf sa pf pa false).wins = s.wins
          ∧ (Standings._update_player_stats s sf sa pf pa false).losses
              = s.losses + 1)
      ∧ (∀ b : Bool,
          (Standings._update_player_stats s sf sa pf pa b).matchesPlayed
              = s.matchesPlayed + 1
        ∧ (Standings._update_player_stats s sf sa pf pa b).setsWon
              = s.setsWon + sf
        ∧ (Standings._update_player_stats s sf sa pf pa b).setsLost
              = s.setsLost + sa
        ∧ (Standings._update_player_stats s sf sa pf pa b).pointsWon
              = s.pointsWon + pf
        ∧ (Standings._update_player_stats s sf sa pf pa b).pointsLost
              = s.pointsLost + pa)) := by
  refine ⟨fun _ _ => rfl, ?_, ?_, ?_, ?_⟩
  · intro stats m h1 h2 hw
    unfold Standings.processMatch
    simp [h1, h2, hw]
  · intro stats m h1 h2 hw hne
    unfold Standings.processMatch
    simp [h1, h2, hw, Ne.symm hne]
  · intro stats m h1 h2 hw hne
    unfold Standings.processMatch
    simp [h1, h2, hw, Ne.symm hne]
  · intro s sf sa pf pa
    refine ⟨⟨?_, ?_⟩, ⟨?_, ?_⟩, fun b => ⟨?_, ?_, ?_, ?_, ?_⟩⟩ <;>
      simp [Standings._update_player_stats]

/-- Witness for C1's amended statement at a concrete winnerless final
match between two registered competitors. -/
theorem c1_standings_win_loss_accounting_witness :
    ((Standings.initStats ["1", "2"]).any (·.playerId = "1") = true)
  ∧ ((Standings.initStats ["1", "2"]).any (·.playerId = "2") = true)
  ∧ Standings.processMatch (Standings.initStats ["1", "2"])
      { id := 1, type := "group", p1 := "1", p2 := "2",
        sets := [⟨0, 0⟩, ⟨0, 0⟩, ⟨0, 0⟩, ⟨0, 0⟩, ⟨0, 0⟩],
        winner := none, status := "final" }
      = Standings.updateStats
          (Standings.updateStats (Standings.initStats ["1", "2"]) "1" (fun s =>
            Standings._update_player_stats s 0 0 0 0 false))
          "2" (fun s => Standings._update_player_stats s 0 0 0 0 false) := by
  refine ⟨by decide, by decide, ?_⟩
  have h := c1_standings_win_loss_accounting.2.1
    (Standings.initStats ["1", "2"])
    { id := 1, type := "group", p1 := "1", p2 := "2",
      sets := [⟨0, 0⟩, ⟨0, 0⟩, ⟨0, 0⟩, ⟨0, 0⟩, ⟨0, 0⟩],
      winner := none, status := "final" }
    (by decide) (by decide) rfl
  simpa using h

/-- Counterexample to C1. Running `compute_standings` on a store with two
registered competitors and one `final` match whose `winner` is unset
gives both competitors `losses = 1`: contrary to the claim, a finished
winnerless match does add a loss to each competitor's row. -/
theorem c1_winnerless_final_match_adds_losses :
    (Standings.compute_standings "man"
        (some { sub := "adm", role := "admin" })
        [{ role := "player", category := "man", playerId := some "1" },
         { role := "player", category := "man", playerId := some "2" }]
        [{ id := 1, type := "group", p1 := "1", p2 := "2",
           sets := [⟨0, 0⟩, ⟨0, 0⟩, ⟨0, 0⟩, ⟨0, 0⟩, ⟨0, 0⟩],
           winner := none, status := "final" }]
        ⟨[], "t0", 7⟩ "t1").2.players.map
      (fun p => (p.playerId, p.wins, p.losses))
      = [("1", 0, 1), ("2", 0, 1)]
  ∧ ¬ ((Standings.compute_standings "man"
        (some { sub := "adm", role := "admin" })
        [{ role := "player", category := "man", playerId := some "1" },
         { role := "player", category := "man", playerId := some "2" }]
        [{ id := 1, type := "group", p1 := "1", p2 := "2",
           sets := [⟨0, 0⟩, ⟨0, 0⟩, ⟨0, 0⟩, ⟨0, 0⟩, ⟨0, 0⟩],
           winner := none, status := "final" }]
        ⟨[], "t0", 7⟩ "t1").2.players.all (fun p => p.losses = 0)) := by
  constructor <;> decide

/- ===== Shared store helpers ===== -/

/-- In-place mutation of the first list element found by a `next(... if p)`
scan: replace the first element satisfying `p` by its image under `f`. -/
def updateFirst (p : α → Bool) (f : α → α) : List α → List α
  | [] => []
  | x :: xs => if p x then f x :: xs else x :: updateFirst p f xs

/-- Python truthiness of an optional string (`None` and `""` are falsy). -/
def truthy (o : Option String) : Bool :=
  match o with
  | some s => decide (s ≠ "")
  | none => false

/- ===== bracket.py data model ===== -/

/-- A row of a group table in `standings_group.json`, restricted to the
`playerId` key `seed_from_groups` reads. -/
structure GRow where
  playerId : String
deriving DecidableEq, Repr

/-- One group's standings in `standings_group.json`. -/
structure GroupStanding where
  table : List GRow
deriving DecidableEq, Repr

/-- The `data/{category}/standings_group.json` document. -/
structure GroupStandingsFile where
  groups : List GroupStanding
deriving DecidableEq, Repr

/-- A seed entry of the bracket document. -/
structure Seed where
  slot : Int
  playerId : String
deriving DecidableEq, Repr

/-- A round of the bracket document. -/
structure Round where
  name : String
  matchIds : List String
deriving DecidableEq, Repr

/-- The `advancesTo` reference of a `bracket.py` elimination match:
`{"matchId": <string id>, "as": "p1"|"p2"}`. -/
structure AdvRefE where
  matchId : String
  as : String
deriving DecidableEq, Repr

/-- An elimination match as stored in `data/{category}/matches_elim.json`
(`bracket.py` schema: string `id`, `phase`, `roundName`). -/
structure MatchE where
  id : String
  phase : String := ""
  roundName : String := ""
  p1 : String := ""
  p2 : String := ""
  sets : List SetScore := []
  winner : Option String := none
  status : String := ""
  advancesTo : Option AdvRefE := none
  scheduledAt : Option String := none
  updatedBy : Option String := none
deriving DecidableEq, Repr

/-- The `data/{category}/bracket.json` document. -/
structure BracketDoc where
  seeds : List Seed
  rounds : List Round
  updatedAt : String
  version : Int
deriving DecidableEq, Repr

/-- The `data/{category}/matches_elim.json` document (`updatedAt` and
`version` keys may be absent). -/
structure ElimDoc where
  «matches» : List MatchE
  updatedAt : Option String := none
  version : Option Int := none
deriving DecidableEq, Repr

/-- The slice of the S3 bucket `bracket.py` touches: the bracket and
elimination-matches documents of each category (`none` = key absent). -/
structure BracketStore where
  manBracket : Option BracketDoc := none
  womanBracket : Option BracketDoc := none
  manElim : Option ElimDoc := none
  womanElim : Option ElimDoc := none
deriving DecidableEq, Repr

namespace Bracket

/-- Read `matches_elim.json` with `_get_json`'s `{"matches": []}`
default. -/
def getElim (st : BracketStore) (cat : String) : ElimDoc :=
  if cat = "man" then st.manElim.getD ⟨[], none, none⟩
  else st.womanElim.getD ⟨[], none, none⟩

/-- Overwrite `matches_elim.json`. -/
def setElim (st : BracketStore) (cat : String) (d : ElimDoc) : BracketStore :=
  if cat = "man" then { st with manElim := some d }
  else { st with womanElim := some d }

/-- Overwrite `bracket.json`. -/
def setBracket (st : BracketStore) (cat : String) (d : BracketDoc) :
    BracketStore :=
  if cat = "man" then { st with manBracket := some d }
  else { st with womanBracket := some d }

/-- Embeds `_new_id`: the source draws a random url-safe id; modelled as a
deterministic fresh-name supply (the code only relies on the ids being
distinct). -/
def mkId (k : Nat) : String := "me_" ++ toString k

/-- Embeds `nxt[adv.get("as")] = winner`: writing slot `"p1"`/`"p2"` sets that
competitor field; any other slot name would create an ad-hoc JSON key
that no reader modelled here consults. -/
def setSlotE (slot w : String) (m : MatchE) : MatchE :=
  if slot = "p1" then { m with p1 := w }
  else if slot = "p2" then { m with p2 := w }
  else m

/-- The five zeroed placeholder sets every generated match starts with. -/
def zeroSets : List SetScore := List.replicate 5 ⟨0, 0⟩

/-- Embeds `bracket.py` `seed_from_groups`, as a pure function of the standings
file it reads and the store slice it writes. -/
def seed_from_groups (category : String) (authUser : Option AuthUser)
    (sfile : GroupStandingsFile) (st : BracketStore) (now : String) :
    Resp × BracketStore :=
  match authUser with
  | none => (⟨403, some "Forbidden"⟩, st)
  | some u =>
    if u.role ≠ "admin" then (⟨403, some "Forbidden"⟩, st)
    else if ¬ (category = "man" ∨ category = "woman") then
      (⟨400, some "category must be man|woman"⟩, st)
    else
      let groups := sfile.groups
      if groups = [] then (⟨400, some "no standings available"⟩, st)
      else
        let top := groups.map (fun g =>
          ((g.table.head?).map (·.playerId), (g.table[1]?).map (·.playerId)))
        if ¬ (top.any (fun x => truthy x.1)) ∨ ¬ (top.any (fun x => truthy x.2))
        then
          (⟨400,
            some "need at least two players (first and second) from groups"⟩,
            st)
        else
          let seeds := top.enum.foldl
            (fun acc ig =>
              let acc := if truthy ig.2.1 then
                  acc ++ [⟨(ig.1 : Int) * 2 + 1, ig.2.1.getD ""⟩]
                else acc
              if truthy ig.2.2 then
                acc ++ [⟨(ig.1 : Int) * 2 + 2, ig.2.2.getD ""⟩]
              else acc)
            ([] : List Seed)
          let n := top.length
          let pairs := (List.range n).filterMap (fun i =>
            let a := (top[i]?.getD (none, none)).1
            let b := (top[(i + 1) % n]?.getD (none, none)).2
            match a, b with
            | some a, some b => if a ≠ "" ∧ b ≠ "" then some (a, b) else none
            | _, _ => none)
          if pairs.length ≤ 1 then
            let mid := mkId 0
            let fm : MatchE :=
              { id := mid, phase := "elim", roundName := "Final",
                p1 := (pairs.head?.map (·.1)).getD "",
                p2 := (pairs.head?.map (·.2)).getD "",
                sets := zeroSets, winner := none, status := "scheduled",
                advancesTo := none, scheduledAt := none, updatedBy := none }
            let rounds : List Round := [⟨"Final", [mid]⟩]
            (⟨200, none⟩,
              setElim (setBracket st category ⟨seeds, rounds, now, 1⟩)
                category ⟨[fm], some now, some 1⟩)
          else
            let qjs := pairs.enum
            let qMatches : List MatchE := qjs.map (fun ip =>
              { id := mkId ip.1, phase := "elim", roundName := "Quarterfinals",
                p1 := ip.2.1, p2 := ip.2.2,
                sets := zeroSets, winner := none, status := "scheduled" })
            let qIds := qjs.map (fun ip => mkId ip.1)
            let k := pairs.length
            let numSemis := (k + 1) / 2
            let step := fun (ms : List MatchE) (j : Nat) =>
              let sid := mkId (k + j)
              let ms := ms ++
                [{ id := sid, phase := "elim", roundName := "Semifinals",
                   p1 := "", p2 := "", sets := zeroSets,
                   winner := none, status := "scheduled" }]
              let ms := updateFirst (fun m => m.id = qIds.getD (2 * j) "")
                (fun m => { m with advancesTo := some ⟨sid, "p1"⟩ }) ms
              if 2 * j + 1 < k then
                updateFirst (fun m => m.id = qIds.getD (2 * j + 1) "")
                  (fun m => { m with advancesTo := some ⟨sid, "p2"⟩ }) ms
              else ms
            let msAfterSemis := (List.range numSemis).foldl step qMatches
            let semiIds := (List.range numSemis).map (fun j => mkId (k + j))
            let fid := mkId (k + numSemis)
            let msWithFinal := msAfterSemis ++
              [{ id := fid, phase := "elim", roundName := "Final",
                 p1 := "", p2 := "", sets := zeroSets,
                 winner := none, status := "scheduled" }]
            let msFinal := semiIds.enum.foldl
              (fun ms js =>
                updateFirst (fun m => m.id = js.2)
                  (fun m =>
                    let slot := if js.1 = 0 then "p1" else "p2"
                    { m with advancesTo := some ⟨fid, slot⟩ }) ms)
              msWithFinal
            let rounds : List Round :=
              [⟨"Quarterfinals", qIds⟩, ⟨"Semifinals", semiIds⟩,
               ⟨"Final", [fid]⟩]
            (⟨200, none⟩,
              setElim (setBracket st category ⟨seeds, rounds, now, 1⟩)
                category ⟨msFinal, some now, some 1⟩)

/-- The payload of `bracket.py` `update_score` (string match ids). -/
structure ScorePayloadE where
  category : String := ""
  matchId : String := ""
  sets : List SetScore := []
  status : String := ""
deriving DecidableEq, Repr

/-- The winner value `bracket.py`'s `update_score` stores:
`m["p1"] if side == "p1" else (m["p2"] if side == "p2" else None)`. -/
def matchWinnerE (m : MatchE) (sets : List SetScore) : Option String :=
  let side := _winner_side sets
  if side = some "p1" then some m.p1
  else if side = some "p2" then some m.p2
  else none

/-- The mutation `bracket.py`'s `update_score` applies to the found
match. -/
def appliedScoreE (m : MatchE) (p : ScorePayloadE) (u : AuthUser) : MatchE :=
  { m with
    sets := p.sets,
    winner := matchWinnerE m p.sets,
    status := p.status,
    updatedBy := some u.sub }

/-- Embeds `bracket.py` `update_score` (elimination matches only). -/
def update_score (p : ScorePayloadE) (authUser : Option AuthUser)
    (st : BracketStore) (now : String) : Resp × BracketStore :=
  match authUser with
  | none => (⟨401, some "Unauthorized"⟩, st)
  | some u =>
    if ¬ (p.category = "man" ∨ p.category = "woman") then
      (⟨400, some "category must be man|woman"⟩, st)
    else if ¬ (p.status = "scheduled" ∨ p.status = "in_progress"
        ∨ p.status = "final") then
      (⟨400, some "status invalid"⟩, st)
    else if ¬ (p.matchId ≠ "" ∧ p.sets.length = 5) then
      (⟨400, some "matchId and exactly 5 sets required"⟩, st)
    else
      let doc := getElim st p.category
      match doc.«matches».find? (fun m => m.id = p.matchId) with
      | none => (⟨404, some "Match not found"⟩, st)
      | some m =>
        if u.role ≠ "admin" ∧ ¬ (u.playerId = some m.p1 ∨ u.playerId = some m.p2)
        then (⟨403, some "Forbidden"⟩, st)
        else if p.sets.any
            (fun s => s.p1 < 0 ∨ s.p2 < 0 ∨ 50 < s.p1 ∨ 50 < s.p2) then
          (⟨400, some "unreasonable set score"⟩, st)
        else
          let m' : MatchE := appliedScoreE m p u
          let doc1 : ElimDoc := { doc with
            «matches» := updateFirst (fun x => x.id = p.matchId) (fun _ => m')
              doc.«matches»,
            updatedAt := some now }
          let st1 := setElim st p.category doc1
          match m'.advancesTo, m'.winner with
          | some adv, some w =>
            if w ≠ "" then
              match doc1.«matches».find? (fun x => x.id = adv.matchId) with
              | some _ =>
                (⟨200, none⟩,
                  setElim st1 p.category { doc1 with
                    «matches» := updateFirst (fun x => x.id = adv.matchId)
                      (setSlotE adv.as w) doc1.«matches»,
                    updatedAt := some now })
              | none => (⟨200, none⟩, st1)
            else (⟨200, none⟩, st1)
          | _, _ => (⟨200, none⟩, st1)

end Bracket

/- ===== matches.py data model and handlers ===== -/

/-- The `data/{category}/matches.json` document (`updatedAt`/`version`
keys may be absent; an absent S3 key behaves as `⟨[], none, none⟩`, which
matches every handler's `_get_json` default). -/
structure MatchesDoc where
  «matches» : List MatchG
  updatedAt : Option String := none
  version : Option Int := none
deriving DecidableEq, Repr

/-- The slice of the S3 bucket `matches.py` touches: one matches document
per category. -/
structure MatchesStore where
  man : MatchesDoc := ⟨[], none, none⟩
  woman : MatchesDoc := ⟨[], none, none⟩
deriving DecidableEq, Repr

namespace Matches

/-- Read `data/{cat}/matches.json` (`cat` has been validated to be
`"man"` or `"woman"` before every read). -/
def getDoc (st : MatchesStore) (cat : String) : MatchesDoc :=
  if cat = "man" then st.man else st.woman

/-- Overwrite `data/{cat}/matches.json`. -/
def setDoc (st : MatchesStore) (cat : String) (d : MatchesDoc) :
    MatchesStore :=
  if cat = "man" then { st with man := d } else { st with woman := d }

/-- The winner value `update_score` stores:
`m["p1"] if who == "p1" else (m["p2"] if who == "p2" else None)`. -/
def matchWinner (m : MatchG) (sets : List SetScore) : Option String :=
  let who := _compute_winner sets
  if who = some "p1" then some m.p1
  else if who = some "p2" then some m.p2
  else none

/-- Slot write of the advancement propagation (`matches.py` flavour). -/
def setSlotG (slot w : String) (m : MatchG) : MatchG :=
  if slot = "p1" then { m with p1 := w }
  else if slot = "p2" then { m with p2 := w }
  else m

/-- The payload of `matches.py` `update_score` (numeric match ids; a
non-numeric or absent id is rejected before any read is used, so it is
modelled by the falsy id `0`). -/
structure ScorePayloadG where
  category : String := ""
  matchId : Int := 0
  sets : List SetScore := []
  status : String := ""
deriving DecidableEq, Repr

/-- The mutation `update_score` applies to the found match: store the
normalised sets, the computed winner, the requested status and the
caller's subject. -/
def appliedScore (m : MatchG) (p : ScorePayloadG) (u : AuthUser) : MatchG :=
  { m with
    sets := p.sets,
    winner := matchWinner m p.sets,
    status := p.status,
    updatedBy := some u.sub }

/-- Embeds `matches.py` `update_score`.  The best-effort standings recomputation
it triggers for group matches writes the standings document family,
modelled separately by `Standings.compute_standings`; the matches store
handled here is unaffected by that side call. -/
def update_score (p : ScorePayloadG) (authUser : Option AuthUser)
    (st : MatchesStore) (now : String) : Resp × MatchesStore :=
  match authUser with
  | none => (⟨401, some "Unauthorized"⟩, st)
  | some u =>
    if ¬ (p.category = "man" ∨ p.category = "woman") then
      (⟨400, some "category must be man|woman"⟩, st)
    else if ¬ (p.status = "scheduled" ∨ p.status = "in_progress"
        ∨ p.status = "final") then
      (⟨400, some "status invalid"⟩, st)
    else if ¬ (p.matchId ≠ 0 ∧ p.sets.length = 5) then
      (⟨400, some "matchId and exactly 5 sets required"⟩, st)
    else
      let doc := getDoc st p.category
      match doc.«matches».find? (fun m => m.id = p.matchId) with
      | none => (⟨404, some "Match not found"⟩, st)
      | some m =>
        if u.role ≠ "admin" ∧ ¬ (u.playerId = some m.p1 ∨ u.playerId = some m.p2)
        then (⟨403, some "Forbidden"⟩, st)
        else if p.sets.any
            (fun s => s.p1 < 0 ∨ s.p2 < 0 ∨ 50 < s.p1 ∨ 50 < s.p2) then
          (⟨400, some "unreasonable set score"⟩, st)
        else
          let m' : MatchG := appliedScore m p u
          let doc1 : MatchesDoc := { doc with
            «matches» := updateFirst (fun x => x.id = p.matchId) (fun _ => m')
              doc.«matches»,
            updatedAt := some now }
          let st1 := setDoc st p.category doc1
          if m'.type = "elimination" then
            match m'.advancesTo, m'.winner with
            | some adv, some w =>
              if w ≠ "" then
                match doc1.«matches».find? (fun x => x.id = adv.matchId) with
                | some _ =>
                  (⟨200, none⟩,
                    setDoc st1 p.category { doc1 with
                      «matches» := updateFirst (fun x => x.id = adv.matchId)
                        (setSlotG adv.as w) doc1.«matches»,
                      updatedAt := some now })
                | none => (⟨200, none⟩, st1)
              else (⟨200, none⟩, st1)
            | _, _ => (⟨200, none⟩, st1)
          else (⟨200, none⟩, st1)

end Matches

/- ===== C2 / C6: bracket seeding ===== -/

/-- Read `bracket.json` of a category (`none` = never written). -/
def getBracketDoc (st : BracketStore) (cat : String) : Option BracketDoc :=
  if cat = "man" then st.manBracket else st.womanBracket

/-- Read `matches_elim.json` of a category (`none` = never written). -/
def getElimDoc (st : BracketStore) (cat : String) : Option ElimDoc :=
  if cat = "man" then st.manElim else st.womanElim

/-- A group's table exposes a (truthy) second placer iff it has at least
two rows, provided row ids are nonempty. -/
theorem truthy_snd_iff (g : GroupStanding)
    (hg : ∀ r ∈ g.table, r.playerId ≠ "") :
    truthy ((g.table[1]?).map (·.playerId)) = true ↔ 2 ≤ g.table.length := by
  cases h : g.table[1]? with
  | none =>
    have hlen := List.getElem?_eq_none_iff.mp h
    simp [truthy]
    omega
  | some r =>
    have hlen : 1 < g.table.length := by
      rcases List.getElem?_eq_some.mp h with ⟨hl, _⟩
      exact hl
    have hmem : r ∈ g.table := List.getElem?_mem h
    simp [truthy, hg r hmem]
    omega

/-- A group's table exposes a (truthy) first placer iff it is nonempty,
provided row ids are nonempty. -/
theorem truthy_fst_iff (g : GroupStanding)
    (hg : ∀ r ∈ g.table, r.playerId ≠ "") :
    truthy ((g.table.head?).map (·.playerId)) = true ↔ 1 ≤ g.table.length := by
  cases h : g.table.head? with
  | none =>
    have := List.head?_eq_none_iff.mp h
    simp [truthy, this]
  | some r =>
    have hmem : r ∈ g.table := List.mem_of_mem_head? h
    have hne : g.table ≠ [] := by
      intro hnil; rw [hnil] at h; simp at h
    simp [truthy, hg r hmem]
    cases htab : g.table with
    | nil => exact absurd htab hne
    | cons a l => simp [htab]

/-- Claim C6. Bracket seeding fails (both of its failure responses are 400s
reported as insufficient data) if and only if no group's standings table
exposes both a first and a second placer — equivalently, with nonempty
player ids, no group table has two rows — and when it fails neither the
bracket document nor the elimination matches document is written (the
store is unchanged). -/
theorem c6_seed_insufficient_data_iff (cat : String)
    (hcat : cat = "man" ∨ cat = "woman")
    (u : AuthUser) (hu : u.role = "admin")
    (sfile : GroupStandingsFile) (st : BracketStore) (now : String)
    (hids : ∀ g ∈ sfile.groups, ∀ r ∈ g.table, r.playerId ≠ "") :
    ((Bracket.seed_from_groups cat (some u) sfile st now).1.code ≠ 200
      ↔ ¬ ∃ g ∈ sfile.groups, 2 ≤ g.table.length)
  ∧ ((Bracket.seed_from_groups cat (some u) sfile st now).1.code ≠ 200
      → (Bracket.seed_from_groups cat (some u) sfile st now).2 = st) := by
  have hcat' : ¬ ¬ (cat = "man" ∨ cat = "woman") := not_not_intro hcat
  by_cases hg : sfile.groups = []
  · constructor
    · simp [Bracket.seed_from_groups, hu, hcat', hg]
    · simp [Bracket.seed_from_groups, hu, hcat', hg]
  · have hB : ((sfile.groups.map (fun g =>
        ((g.table.head?).map (·.playerId), (g.table[1]?).map (·.playerId)))).any
          (fun x => truthy x.2) = true)
        ↔ ∃ g ∈ sfile.groups, 2 ≤ g.table.length := by
      rw [List.any_eq_true]
      constructor
      · rintro ⟨x, hx, hp⟩
        obtain ⟨g, hmem, rfl⟩ := List.mem_map.mp hx
        exact ⟨g, hmem, (truthy_snd_iff g (hids g hmem)).mp hp⟩
      · rintro ⟨g, hmem, hp⟩
        exact ⟨_, List.mem_map_of_mem _ hmem,
          (truthy_snd_iff g (hids g hmem)).mpr hp⟩
    by_cases hC : ∃ g ∈ sfile.groups, 2 ≤ g.table.length
    · have hBt := hB.mpr hC
      have hAt : ((sfile.groups.map (fun g =>
          ((g.table.head?).map (·.playerId), (g.table[1]?).map (·.playerId)))).any
            (fun x => truthy x.1) = true) := by
        rw [List.any_eq_true]
        obtain ⟨g, hmem, hlen⟩ := hC
        exact ⟨_, List.mem_map_of_mem _ hmem,
          (truthy_fst_iff g (hids g hmem)).mpr (by omega)⟩
      have hrole : (u.role ≠ "admin") = False := by simp [hu]
      have h200 :
          (Bracket.seed_from_groups cat (some u) sfile st now).1.code = 200 := by
        simp only [Bracket.seed_from_groups, hrole, hcat', hg, hAt, hBt,
          not_true, not_true_eq_false, or_self, if_false, eq_self_iff_true,
          ite_true, ite_false, not_false_eq_true, Bool.not_eq_true]
        split <;> rfl
      constructor
      · rw [h200]
        simp only [ne_eq, not_true_eq_false, false_iff, not_not]
        exact hC
      · intro hne
        exact absurd h200 hne
    · have hBf : ¬ (((sfile.groups.map (fun g =>
          ((g.table.head?).map (·.playerId), (g.table[1]?).map (·.playerId)))).any
            (fun x => truthy x.2)) = true) := fun hx => hC (hB.mp hx)
      constructor
      · constructor
        · intro _; exact hC
        · intro _
          simp [Bracket.seed_from_groups, hu, hcat', hg, hBf]
      · intro _
        simp [Bracket.seed_from_groups, hu, hcat', hg, hBf]

/-- Witness for C6 at a concrete input: a single group whose table has
one row — seeding fails and the store keeps its initial value. -/
theorem c6_seed_insufficient_data_iff_witness :
    (("man" : String) = "man" ∨ ("man" : String) = "woman")
  ∧ (({ sub := "adm", role := "admin" } : AuthUser).role = "admin")
  ∧ (∀ g ∈ (⟨[⟨[⟨"a"⟩]⟩]⟩ : GroupStandingsFile).groups,
      ∀ r ∈ g.table, r.playerId ≠ "")
  ∧ (((Bracket.seed_from_groups "man" (some { sub := "adm", role := "admin" })
        ⟨[⟨[⟨"a"⟩]⟩]⟩ {} "T").1.code ≠ 200
      ↔ ¬ ∃ g ∈ (⟨[⟨[⟨"a"⟩]⟩]⟩ : GroupStandingsFile).groups,
          2 ≤ g.table.length)
    ∧ ((Bracket.seed_from_groups "man" (some { sub := "adm", role := "admin" })
        ⟨[⟨[⟨"a"⟩]⟩]⟩ {} "T").1.code ≠ 200
      → (Bracket.seed_from_groups "man" (some { sub := "adm", role := "admin" })
          ⟨[⟨[⟨"a"⟩]⟩]⟩ {} "T").2 = {})) :=
  ⟨Or.inl rfl, rfl, by decide,
    c6_seed_insufficient_data_iff "man" (Or.inl rfl) _ rfl _ {} "T" (by decide)⟩

/-- Claim C2, amended. Given 4 groups whose standings each report a first
and a second placer, the bracket builder produces exactly **4**
Quarterfinal matches, **2** Semifinal matches and 1 Final (not 2/1/1 as
claimed): the pairing rule makes one quarterfinal per group.  The
wiring part of the claim holds: quarterfinal match 0 carries an
`advancesTo` reference to the first semifinal's slot `p1` and
quarterfinal match 1 to its slot `p2` (and pairwise so on, the two
semifinals feeding the Final's two slots). -/
theorem c2_seed_four_groups_bracket_shape (cat : String)
    (hcat : cat = "man" ∨ cat = "woman")
    (a1 a2 b1 b2 c1 c2 d1 d2 : String)
    (ha1 : a1 ≠ "") (ha2 : a2 ≠ "") (hb1 : b1 ≠ "") (hb2 : b2 ≠ "")
    (hc1 : c1 ≠ "") (hc2 : c2 ≠ "") (hd1 : d1 ≠ "") (hd2 : d2 ≠ "")
    (sfile : GroupStandingsFile)
    (htop : sfile.groups.map (fun g =>
        ((g.table.head?).map (·.playerId), (g.table[1]?).map (·.playerId)))
      = [(some a1, some a2), (some b1, some b2), (some c1, some c2),
         (some d1, some d2)])
    (hne : sfile.groups ≠ [])
    (u : AuthUser) (hu : u.role = "admin") (st : BracketStore) (now : String) :
    (Bracket.seed_from_groups cat (some u) sfile st now).1.code = 200
  ∧ ((Bracket.seed_from_groups cat (some u) sfile st now).2
        |> (getBracketDoc · cat)).map
      (fun b => b.rounds.map (fun r => (r.name, r.matchIds.length)))
      = some [("Quarterfinals", 4), ("Semifinals", 2), ("Final", 1)]
  ∧ ((Bracket.seed_from_groups cat (some u) sfile st now).2
        |> (getElimDoc · cat)).map
      (fun e => e.«matches».map (fun m => (m.roundName, m.advancesTo)))
      = some [("Quarterfinals", some ⟨"me_4", "p1"⟩),
              ("Quarterfinals", some ⟨"me_4", "p2"⟩),
              ("Quarterfinals", some ⟨"me_5", "p1"⟩),
              ("Quarterfinals", some ⟨"me_5", "p2"⟩),
              ("Semifinals", some ⟨"me_6", "p1"⟩),
              ("Semifinals", some ⟨"me_6", "p2"⟩),
              ("Final", none)] := by
  have hrange : List.range 4 = [0, 1, 2, 3] := rfl
  have e0 : Bracket.mkId 0 = "me_0" := rfl
  have e1 : Bracket.mkId 1 = "me_1" := rfl
  have e2 : Bracket.mkId 2 = "me_2" := rfl
  have e3 : Bracket.mkId 3 = "me_3" := rfl
  have e4 : Bracket.mkId 4 = "me_4" := rfl
  have e5 : Bracket.mkId 5 = "me_5" := rfl
  have e6 : Bracket.mkId 6 = "me_6" := rfl
  rcases hcat with h | h <;> subst h <;>
    refine ⟨?_, ?_, ?_⟩ <;>
    simp only [Bracket.seed_from_groups, hu, htop, hne, hrange, getBracketDoc,
      getElimDoc] <;>
    simp [truthy, ha1, ha2, hb1, hb2, hc1, hc2, hd1, hd2, Bracket.setElim,
      Bracket.setBracket, List.filterMap, updateFirst, List.range_succ,
      List.enum, List.enumFrom, e0, e1, e2, e3, e4, e5, e6]

/-- Witness for C2's amended statement at a concrete 4-group input. -/
theorem c2_seed_four_groups_bracket_shape_witness :
    ((⟨[⟨[⟨"a1"⟩, ⟨"a2"⟩]⟩, ⟨[⟨"b1"⟩, ⟨"b2"⟩]⟩, ⟨[⟨"c1"⟩, ⟨"c2"⟩]⟩,
        ⟨[⟨"d1"⟩, ⟨"d2"⟩]⟩]⟩ : GroupStandingsFile).groups.map (fun g =>
        ((g.table.head?).map (·.playerId), (g.table[1]?).map (·.playerId)))
      = [(some "a1", some "a2"), (some "b1", some "b2"),
         (some "c1", some "c2"), (some "d1", some "d2")])
  ∧ (Bracket.seed_from_groups "man" (some { sub := "adm", role := "admin" })
      ⟨[⟨[⟨"a1"⟩, ⟨"a2"⟩]⟩, ⟨[⟨"b1"⟩, ⟨"b2"⟩]⟩, ⟨[⟨"c1"⟩, ⟨"c2"⟩]⟩,
        ⟨[⟨"d1"⟩, ⟨"d2"⟩]⟩]⟩ {} "T").1.code = 200
  ∧ ((Bracket.seed_from_groups "man" (some { sub := "adm", role := "admin" })
      ⟨[⟨[⟨"a1"⟩, ⟨"a2"⟩]⟩, ⟨[⟨"b1"⟩, ⟨"b2"⟩]⟩, ⟨[⟨"c1"⟩, ⟨"c2"⟩]⟩,
        ⟨[⟨"d1"⟩, ⟨"d2"⟩]⟩]⟩ {} "T").2
        |> (getBracketDoc · "man")).map
      (fun b => b.rounds.map (fun r => (r.name, r.matchIds.length)))
      = some [("Quarterfinals", 4), ("Semifinals", 2), ("Final", 1)] := by
  refine ⟨by decide, ?_, ?_⟩
  · exact (c2_seed_four_groups_bracket_shape "man" (Or.inl rfl)
      "a1" "a2" "b1" "b2" "c1" "c2" "d1" "d2"
      (by decide) (by decide) (by decide) (by decide)
      (by decide) (by decide) (by decide) (by decide)
      _ (by decide) (by decide) _ rfl {} "T").1
  · exact (c2_seed_four_groups_bracket_shape "man" (Or.inl rfl)
      "a1" "a2" "b1" "b2" "c1" "c2" "d1" "d2"
      (by decide) (by decide) (by decide) (by decide)
      (by decide) (by decide) (by decide) (by decide)
      _ (by decide) (by decide) _ rfl {} "T").2.1

/-- Counterexample to C2. With 4 concrete two-row groups, the builder
creates a Quarterfinals round of **4** matches (plus 2 Semifinals and a
Final), so the claimed "exactly 2 Quarterfinal matches, 1 Semifinal" is
false on the code. -/
theorem c2_four_groups_give_four_quarterfinals :
    ((Bracket.seed_from_groups "man" (some { sub := "adm", role := "admin" })
        ⟨[⟨[⟨"a1"⟩, ⟨"a2"⟩]⟩, ⟨[⟨"b1"⟩, ⟨"b2"⟩]⟩, ⟨[⟨"c1"⟩, ⟨"c2"⟩]⟩,
          ⟨[⟨"d1"⟩, ⟨"d2"⟩]⟩]⟩ {} "T").2.manBracket.map
      (fun b => b.rounds.map (fun r => (r.name, r.matchIds.length)))
      = some [("Quarterfinals", 4), ("Semifinals", 2), ("Final", 1)])
  ∧ ¬ ((Bracket.seed_from_groups "man" (some { sub := "adm", role := "admin" })
        ⟨[⟨[⟨"a1"⟩, ⟨"a2"⟩]⟩, ⟨[⟨"b1"⟩, ⟨"b2"⟩]⟩, ⟨[⟨"c1"⟩, ⟨"c2"⟩]⟩,
          ⟨[⟨"d1"⟩, ⟨"d2"⟩]⟩]⟩ {} "T").2.manBracket.map
      (fun b => b.rounds.map (fun r => (r.name, r.matchIds.length)))
      = some [("Quarterfinals", 2), ("Semifinals", 1), ("Final", 1)]) := by
  constructor <;> decide

/- ===== matches.py: match create/update/delete (C3, C4) ===== -/

namespace Matches

/-- The payload of `matches.py` `update_match`.  An outer `Option` on a
field records whether the JSON key is present (the handler distinguishes
`"winner" in payload` from the value being `null`); `.strip()`ed string
fields are modelled as already stripped. -/
structure UpdatePayload where
  id : Option Int := none
  category : String := ""
  player1 : String := ""
  player2 : String := ""
  winner : Option (Option String) := none
  status : String := ""
  sets : Option (List SetScore) := none
  group : Option (Option String) := none
  round : Option (Option Int) := none
  scheduledAt : Option (Option String) := none
  advancesTo : Option (Option AdvRefG) := none
deriving DecidableEq, Repr

/-- The category scan of `update_match`/`delete_match`: return the first
category whose document contains the id, together with the found match. -/
def findInCats (st : MatchesStore) (cats : List String) (mid : Int) :
    Option (String × MatchG) :=
  match cats with
  | [] => none
  | c :: rest =>
    match (getDoc st c).«matches».find? (fun m => m.id = mid) with
    | some m => some (c, m)
    | none => findInCats st rest mid

/-- The field-by-field conditional mutation `update_match` applies
(`winner`, `scheduledAt`, `group`, `round`, `advancesTo` go by key
presence and may be set to null; the caller-supplied `winner` is stored
without any check against `p1`/`p2`). -/
def applyUpdate (m : MatchG) (p : UpdatePayload) (u : AuthUser) : MatchG :=
  let m := if p.player1 ≠ "" then { m with p1 := p.player1 } else m
  let m := if p.player2 ≠ "" then { m with p2 := p.player2 } else m
  let m := match p.winner with | some w => { m with winner := w } | none => m
  let m := if p.status ≠ "" then { m with status := p.status } else m
  let m := match p.sets with | some ss => { m with sets := ss } | none => m
  let m := match p.scheduledAt with
    | some v => { m with scheduledAt := v }
    | none => m
  let m := match p.group with | some v => { m with group := v } | none => m
  let m := match p.round with | some v => { m with round := v } | none => m
  let m := match p.advancesTo with
    | some v => { m with advancesTo := v }
    | none => m
  { m with updatedBy := some u.sub }

/-- Embeds `matches.py` `update_match`.  The source performs no role check of
its own (its docstring notwithstanding) but dereferences `auth_user`, so
the resolved identity is taken as given.  The per-set error messages
(`f"set {i+1} ..."`) are collapsed into one representative message; the
best-effort standings recomputation is modelled separately. -/
def update_match (p : UpdatePayload) (u : AuthUser) (st : MatchesStore)
    (now : String) : Resp × MatchesStore :=
  match p.id with
  | none => (⟨400, some "match id required"⟩, st)
  | some mid =>
    if p.category ≠ "" ∧ ¬ (p.category = "man" ∨ p.category = "woman") then
      (⟨400, some "category must be man|woman"⟩, st)
    else
      let cats := if p.category ≠ "" then [p.category] else ["man", "woman"]
      match findInCats st cats mid with
      | none => (⟨404, some "Match not found"⟩, st)
      | some (cat, m) =>
        if p.player1 ≠ "" ∧ p.player2 ≠ "" ∧ p.player1 = p.player2 then
          (⟨400, some "player1 and player2 must be different"⟩, st)
        else if p.status ≠ "" ∧ ¬ (p.status = "pending"
            ∨ p.status = "scheduled" ∨ p.status = "in_progress"
            ∨ p.status = "final") then
          (⟨400, some "status must be pending|scheduled|in_progress|final"⟩,
            st)
        else if (match p.sets with
            | some ss => ss.any
                (fun s => s.p1 < 0 ∨ s.p2 < 0 ∨ 50 < s.p1 ∨ 50 < s.p2)
            | none => false) then
          (⟨400, some "set scores must be between 0 and 50"⟩, st)
        else
          let m' := applyUpdate m p u
          let doc := getDoc st cat
          let doc' : MatchesDoc := { doc with
            «matches» := updateFirst (fun x => x.id = mid) (fun _ => m')
              doc.«matches»,
            updatedAt := some now,
            version := some (doc.version.getD 1 + 1) }
          (⟨200, none⟩, setDoc st cat doc')

/-- The payload of `matches.py` `create_match` (defaults as in the
source: status `"pending"`, type `"group"`, empty sets). -/
structure CreatePayload where
  player1 : String := ""
  player2 : String := ""
  winner : Option String := none
  status : String := "pending"
  sets : List SetScore := []
  category : String := ""
  type : String := "group"
  group : Option String := none
  round : Option Int := none
  scheduledAt : Option String := none
  advancesTo : Option AdvRefG := none
deriving DecidableEq, Repr

/-- Computes `max(existing_ids, default=0)`: the maximum of the list, or `0` when
it is empty. -/
def pyMaxIds (l : List Int) : Int :=
  match l with
  | [] => 0
  | x :: xs => xs.foldl max x

/-- Python truthiness of an optional int (`None` and `0` are falsy), for
`create_match`'s `round` check. -/
def truthyInt (o : Option Int) : Bool :=
  match o with
  | some r => decide (r ≠ 0)
  | none => false

/-- Embeds `matches.py` `create_match`.  The document read used for id
generation happens before validation; on every validation failure no
write follows, so reading an unvalidated category key is unobservable. -/
def create_match (p : CreatePayload) (authUser : Option AuthUser)
    (st : MatchesStore) (now : String) : Resp × MatchesStore :=
  match authUser with
  | none => (⟨403, some "Admin access required"⟩, st)
  | some u =>
    if u.role ≠ "admin" then (⟨403, some "Admin access required"⟩, st)
    else
      let doc := getDoc st p.category
      let mid := pyMaxIds (doc.«matches».map (·.id)) + 1
      if p.player1 = "" ∨ p.player2 = "" then
        (⟨400, some "player1 and player2 required"⟩, st)
      else if p.player1 = p.player2 then
        (⟨400, some "player1 and player2 must be different"⟩, st)
      else if ¬ (p.category = "man" ∨ p.category = "woman") then
        (⟨400, some "category must be man|woman"⟩, st)
      else if ¬ (p.type = "group" ∨ p.type = "elimination") then
        (⟨400, some "type must be group|elimination"⟩, st)
      else if ¬ (p.status = "pending" ∨ p.status = "scheduled"
          ∨ p.status = "in_progress" ∨ p.status = "final") then
        (⟨400, some "status must be pending|scheduled|in_progress|final"⟩,
          st)
      else if p.type = "group" ∧ truthy p.group = false then
        (⟨400, some "group required for group type"⟩, st)
      else if p.type = "elimination" ∧ truthyInt p.round = false then
        (⟨400, some "round required for elimination type"⟩, st)
      else if p.sets.any
          (fun s => s.p1 < 0 ∨ s.p2 < 0 ∨ 50 < s.p1 ∨ 50 < s.p2) then
        (⟨400, some "set scores must be between 0 and 50"⟩, st)
      else
        let newMatch : MatchG := {
          id := mid, type := p.type, p1 := p.player1, p2 := p.player2,
          sets := p.sets, winner := p.winner, status := p.status,
          scheduledAt := p.scheduledAt, updatedBy := some u.sub,
          group := if p.type = "group" then p.group else none,
          round := if p.type = "elimination" then p.round else none,
          advancesTo := if p.type = "elimination" then p.advancesTo
            else none }
        let doc' : MatchesDoc :=
          ⟨doc.«matches» ++ [newMatch], some now,
            some (doc.version.getD 1 + 1)⟩
        (⟨201, none⟩, setDoc st p.category doc')

/-- The payload of `matches.py` `delete_match`. -/
structure DeletePayload where
  id : Option Int := none
  category : String := ""
deriving DecidableEq, Repr

/-- Embeds `matches.py` `delete_match` (removes the first match with the id from
the first category that has it, bumping version and timestamp). -/
def delete_match (p : DeletePayload) (authUser : Option AuthUser)
    (st : MatchesStore) (now : String) : Resp × MatchesStore :=
  match authUser with
  | none => (⟨403, some "Admin access required"⟩, st)
  | some u =>
    if u.role ≠ "admin" then (⟨403, some "Admin access required"⟩, st)
    else match p.id with
    | none => (⟨400, some "match id required"⟩, st)
    | some mid =>
      if p.category ≠ "" ∧ ¬ (p.category = "man" ∨ p.category = "woman")
      then (⟨400, some "category must be man|woman"⟩, st)
      else
        let cats := if p.category ≠ "" then [p.category] else ["man", "woman"]
        match findInCats st cats mid with
        | none => (⟨404, some "Match not found"⟩, st)
        | some (cat, _) =>
          let doc := getDoc st cat
          let doc' : MatchesDoc := { doc with
            «matches» := doc.«matches».eraseP (fun x => x.id = mid),
            updatedAt := some now,
            version := some (doc.version.getD 1 + 1) }
          (⟨200, none⟩, setDoc st cat doc')

end Matches


/- ===== Helper lemmas for the update handlers (C3, C4, C7, C8) ===== -/

/-- A `find?` over an `updateFirst`-modified list stays empty when
neither the original elements nor any replacement satisfies the
predicate. -/
theorem find?_updateFirst_none {α} (pp q : α → Bool) (f : α → α) (l : List α)
    (h : ∀ x ∈ l, q x = false) (hf : ∀ x ∈ l, q (f x) = false) :
    (updateFirst pp f l).find? q = none := by
  induction l with
  | nil => rfl
  | cons x xs ih =>
    unfold updateFirst
    by_cases hp : pp x = true
    · rw [if_pos hp]
      rw [List.find?_cons_of_neg _ (by simp [hf x (by simp)])]
      rw [List.find?_eq_none]
      intro y hy
      simp [h y (List.mem_cons_of_mem _ hy)]
    · rw [if_neg hp]
      rw [List.find?_cons_of_neg _ (by simp [h x (by simp)])]
      exact ih (fun y hy => h y (List.mem_cons_of_mem _ hy))
        (fun y hy => hf y (List.mem_cons_of_mem _ hy))

/-- The stored winner of a score update is always `None`, `m["p1"]` or
`m["p2"]`. -/
theorem matchWinner_cases (m : MatchG) (sets : List SetScore) :
    Matches.matchWinner m sets = none
  ∨ Matches.matchWinner m sets = some m.p1
  ∨ Matches.matchWinner m sets = some m.p2 := by
  unfold Matches.matchWinner
  by_cases h1 : Matches._compute_winner sets = some "p1"
  · simp [h1]
  · by_cases h2 : Matches._compute_winner sets = some "p2" <;> simp [h1, h2]

/-- Success-path equation of `matches.py` `update_score` for a
non-elimination match: the response is 200 and the store receives exactly
one write, replacing the found match by its `appliedScore` mutation and
refreshing `updatedAt` (the `version` key is carried over untouched). -/
theorem matches_update_score_group_eq
    (p : Matches.ScorePayloadG) (u : AuthUser) (st : MatchesStore)
    (now : String) (m : MatchG)
    (hu : u.role = "admin")
    (hcat : p.category = "man" ∨ p.category = "woman")
    (hstatus : p.status = "scheduled" ∨ p.status = "in_progress"
      ∨ p.status = "final")
    (hid : p.matchId ≠ 0) (hlen : p.sets.length = 5)
    (hfind : (Matches.getDoc st p.category).«matches».find?
        (fun x => x.id = p.matchId) = some m)
    (hrange : ∀ s ∈ p.sets, 0 ≤ s.p1 ∧ 0 ≤ s.p2 ∧ s.p1 ≤ 50 ∧ s.p2 ≤ 50)
    (htype : m.type ≠ "elimination") :
    Matches.update_score p (some u) st now
      = (⟨200, none⟩,
         Matches.setDoc st p.category
          { Matches.getDoc st p.category with
            «matches» := updateFirst (fun x => x.id = p.matchId)
              (fun _ => Matches.appliedScore m p u)
              (Matches.getDoc st p.category).«matches»,
            updatedAt := some now }) := by
  have h1 : ¬ ¬ (p.category = "man" ∨ p.category = "woman") :=
    not_not_intro hcat
  have h2 : ¬ ¬ (p.status = "scheduled" ∨ p.status = "in_progress"
      ∨ p.status = "final") := not_not_intro hstatus
  have h3 : ¬ ¬ (p.matchId ≠ 0 ∧ p.sets.length = 5) :=
    not_not_intro ⟨hid, hlen⟩
  have h4 : ¬ (u.role ≠ "admin"
      ∧ ¬ (u.playerId = some m.p1 ∨ u.playerId = some m.p2)) := by
    simp [hu]
  have h5 : (p.sets.any
      (fun s => s.p1 < 0 ∨ s.p2 < 0 ∨ 50 < s.p1 ∨ 50 < s.p2)) = false := by
    rw [List.any_eq_false]
    intro s hs
    have := hrange s hs
    simp
    omega
  have h6 : ((Matches.appliedScore m p u).type = "elimination") = False := by
    simp [Matches.appliedScore]
    exact htype
  simp only [Matches.update_score, h1, h2, h3, hfind, h4, h5, h6,
    if_false, ite_false, if_true, ite_true, not_false_eq_true,
    Bool.false_eq_true, reduceIte]

/-- Success-path equation of `matches.py` `update_score` for an
elimination match with a winner whose `advancesTo` target is **missing**
from the store: the propagation is skipped and only the primary write
happens, with response 200. -/
theorem matches_update_score_elim_missing_eq
    (p : Matches.ScorePayloadG) (u : AuthUser) (st : MatchesStore)
    (now : String) (m : MatchG) (adv : AdvRefG) (w : String)
    (hu : u.role = "admin")
    (hcat : p.category = "man" ∨ p.category = "woman")
    (hstatus : p.status = "scheduled" ∨ p.status = "in_progress"
      ∨ p.status = "final")
    (hid : p.matchId ≠ 0) (hlen : p.sets.length = 5)
    (hfind : (Matches.getDoc st p.category).«matches».find?
        (fun x => x.id = p.matchId) = some m)
    (hrange : ∀ s ∈ p.sets, 0 ≤ s.p1 ∧ 0 ≤ s.p2 ∧ s.p1 ≤ 50 ∧ s.p2 ≤ 50)
    (htype : m.type = "elimination")
    (hadv : m.advancesTo = some adv)
    (hw : Matches.matchWinner m p.sets = some w) (hwne : w ≠ "")
    (hmiss : ∀ x ∈ (Matches.getDoc st p.category).«matches»,
      x.id ≠ adv.matchId) :
    Matches.update_score p (some u) st now
      = (⟨200, none⟩,
         Matches.setDoc st p.category
          { Matches.getDoc st p.category with
            «matches» := updateFirst (fun x => x.id = p.matchId)
              (fun _ => Matches.appliedScore m p u)
              (Matches.getDoc st p.category).«matches»,
            updatedAt := some now }) := by
  have h1 : ¬ ¬ (p.category = "man" ∨ p.category = "woman") :=
    not_not_intro hcat
  have h2 : ¬ ¬ (p.status = "scheduled" ∨ p.status = "in_progress"
      ∨ p.status = "final") := not_not_intro hstatus
  have h3 : ¬ ¬ (p.matchId ≠ 0 ∧ p.sets.length = 5) :=
    not_not_intro ⟨hid, hlen⟩
  have h4 : ¬ (u.role ≠ "admin"
      ∧ ¬ (u.playerId = some m.p1 ∨ u.playerId = some m.p2)) := by
    simp [hu]
  have h5 : (p.sets.any
      (fun s => s.p1 < 0 ∨ s.p2 < 0 ∨ 50 < s.p1 ∨ 50 < s.p2)) = false := by
    rw [List.any_eq_false]
    intro s hs
    have := hrange s hs
    simp
    omega
  have h6 : (Matches.appliedScore m p u).type = "elimination" := by
    simpa [Matches.appliedScore] using htype
  have h7 : (Matches.appliedScore m p u).advancesTo = some adv := by
    simpa [Matches.appliedScore] using hadv
  have h8 : (Matches.appliedScore m p u).winner = some w := by
    simpa [Matches.appliedScore] using hw
  have hmem : m ∈ (Matches.getDoc st p.category).«matches» :=
    List.mem_of_find?_eq_some hfind
  have h9 : (updateFirst (fun x => x.id = p.matchId)
      (fun _ => Matches.appliedScore m p u)
      (Matches.getDoc st p.category).«matches»).find?
        (fun x => x.id = adv.matchId) = none := by
    apply find?_updateFirst_none
    · intro x hx
      simp [hmiss x hx]
    · intro x hx
      simp [Matches.appliedScore]
      exact hmiss m hmem
  simp only [Matches.update_score, h1, h2, h3, hfind, h4, h5, h6, h7, h8, h9,
    hwne, if_false, ite_false, if_true, ite_true, not_false_eq_true,
    Bool.false_eq_true, reduceIte, ne_eq]

/-- The same missing-downstream equation for `bracket.py`'s
`update_score`. -/
theorem bracket_update_score_missing_eq
    (p : Bracket.ScorePayloadE) (u : AuthUser) (st : BracketStore)
    (now : String) (m : MatchE) (adv : AdvRefE) (w : String)
    (hu : u.role = "admin")
    (hcat : p.category = "man" ∨ p.category = "woman")
    (hstatus : p.status = "scheduled" ∨ p.status = "in_progress"
      ∨ p.status = "final")
    (hid : p.matchId ≠ "") (hlen : p.sets.length = 5)
    (hfind : (Bracket.getElim st p.category).«matches».find?
        (fun x => x.id = p.matchId) = some m)
    (hrange : ∀ s ∈ p.sets, 0 ≤ s.p1 ∧ 0 ≤ s.p2 ∧ s.p1 ≤ 50 ∧ s.p2 ≤ 50)
    (hadv : m.advancesTo = some adv)
    (hw : Bracket.matchWinnerE m p.sets = some w) (hwne : w ≠ "")
    (hmiss : ∀ x ∈ (Bracket.getElim st p.category).«matches»,
      x.id ≠ adv.matchId) :
    Bracket.update_score p (some u) st now
      = (⟨200, none⟩,
         Bracket.setElim st p.category
          { Bracket.getElim st p.category with
            «matches» := updateFirst (fun x => x.id = p.matchId)
              (fun _ => Bracket.appliedScoreE m p u)
              (Bracket.getElim st p.category).«matches»,
            updatedAt := some now }) := by
  have h1 : ¬ ¬ (p.category = "man" ∨ p.category = "woman") :=
    not_not_intro hcat
  have h2 : ¬ ¬ (p.status = "scheduled" ∨ p.status = "in_progress"
      ∨ p.status = "final") := not_not_intro hstatus
  have h3 : ¬ ¬ (p.matchId ≠ "" ∧ p.sets.length = 5) :=
    not_not_intro ⟨hid, hlen⟩
  have h4 : ¬ (u.role ≠ "admin"
      ∧ ¬ (u.playerId = some m.p1 ∨ u.playerId = some m.p2)) := by
    simp [hu]
  have h5 : (p.sets.any
      (fun s => s.p1 < 0 ∨ s.p2 < 0 ∨ 50 < s.p1 ∨ 50 < s.p2)) = false := by
    rw [List.any_eq_false]
    intro s hs
    have := hrange s hs
    simp
    omega
  have h7 : (Bracket.appliedScoreE m p u).advancesTo = some adv := by
    simpa [Bracket.appliedScoreE] using hadv
  have h8 : (Bracket.appliedScoreE m p u).winner = some w := by
    simpa [Bracket.appliedScoreE] using hw
  have hmem : m ∈ (Bracket.getElim st p.category).«matches» :=
    List.mem_of_find?_eq_some hfind
  have h9 : (updateFirst (fun x => x.id = p.matchId)
      (fun _ => Bracket.appliedScoreE m p u)
      (Bracket.getElim st p.category).«matches»).find?
        (fun x => x.id = adv.matchId) = none := by
    apply find?_updateFirst_none
    · intro x hx
      simp [hmiss x hx]
    · intro x hx
      simp [Bracket.appliedScoreE]
      exact hmiss m hmem
  simp only [Bracket.update_score, h1, h2, h3, hfind, h4, h5, h7, h8, h9,
    hwne, if_false, ite_false, if_true, ite_true, not_false_eq_true,
    Bool.false_eq_true, reduceIte, ne_eq]

/-- Writing a category's document and reading it back returns it. -/
theorem getDoc_setDoc (st : MatchesStore) (cat : String) (d : MatchesDoc) :
    Matches.getDoc (Matches.setDoc st cat d) cat = d := by
  unfold Matches.getDoc Matches.setDoc
  by_cases h : cat = "man" <;> simp [h]

/-- Every successful `update_score`, elimination propagation included,
carries the stored `version` over unchanged while refreshing the
timestamp: neither the primary write nor the optional downstream-slot
write touches the `version` key. -/
theorem matches_update_score_version_preserved
    (p : Matches.ScorePayloadG) (u : AuthUser) (st : MatchesStore)
    (now : String) (m : MatchG)
    (hu : u.role = "admin")
    (hcat : p.category = "man" ∨ p.category = "woman")
    (hstatus : p.status = "scheduled" ∨ p.status = "in_progress"
      ∨ p.status = "final")
    (hid : p.matchId ≠ 0) (hlen : p.sets.length = 5)
    (hfind : (Matches.getDoc st p.category).«matches».find?
        (fun x => x.id = p.matchId) = some m)
    (hrange : ∀ s ∈ p.sets, 0 ≤ s.p1 ∧ 0 ≤ s.p2 ∧ s.p1 ≤ 50 ∧ s.p2 ≤ 50) :
    (Matches.update_score p (some u) st now).1.code = 200
  ∧ (Matches.getDoc (Matches.update_score p (some u) st now).2
      p.category).version = (Matches.getDoc st p.category).version
  ∧ (Matches.getDoc (Matches.update_score p (some u) st now).2
      p.category).updatedAt = some now := by
  have h1 : ¬ ¬ (p.category = "man" ∨ p.category = "woman") :=
    not_not_intro hcat
  have h2 : ¬ ¬ (p.status = "scheduled" ∨ p.status = "in_progress"
      ∨ p.status = "final") := not_not_intro hstatus
  have h3 : ¬ ¬ (p.matchId ≠ 0 ∧ p.sets.length = 5) :=
    not_not_intro ⟨hid, hlen⟩
  have h4 : ¬ (u.role ≠ "admin"
      ∧ ¬ (u.playerId = some m.p1 ∨ u.playerId = some m.p2)) := by
    simp [hu]
  have h5 : (p.sets.any
      (fun s => s.p1 < 0 ∨ s.p2 < 0 ∨ 50 < s.p1 ∨ 50 < s.p2)) = false := by
    rw [List.any_eq_false]
    intro s hs
    have := hrange s hs
    simp
    omega
  simp only [Matches.update_score, h1, h2, h3, hfind, h4, h5,
    if_false, ite_false, if_true, ite_true, not_false_eq_true,
    Bool.false_eq_true, reduceIte]
  repeat' split
  all_goals refine ⟨rfl, ?_, ?_⟩ <;> simp [getDoc_setDoc]

/-- Success-path equation of `update_match`: one write, replacing the
found match by its `applyUpdate` mutation, bumping the version and
refreshing the timestamp. -/
theorem update_match_success_eq
    (p : Matches.UpdatePayload) (u : AuthUser) (st : MatchesStore)
    (now : String) (mid : Int) (cat : String) (m : MatchG)
    (hid : p.id = some mid)
    (hcat : ¬ (p.category ≠ ""
      ∧ ¬ (p.category = "man" ∨ p.category = "woman")))
    (hfind : Matches.findInCats st
        (if p.category ≠ "" then [p.category] else ["man", "woman"]) mid
      = some (cat, m))
    (hp12 : ¬ (p.player1 ≠ "" ∧ p.player2 ≠ "" ∧ p.player1 = p.player2))
    (hstatus : ¬ (p.status ≠ "" ∧ ¬ (p.status = "pending"
      ∨ p.status = "scheduled" ∨ p.status = "in_progress"
      ∨ p.status = "final")))
    (hsets : (match p.sets with
      | some ss => ss.any
          (fun s => s.p1 < 0 ∨ s.p2 < 0 ∨ 50 < s.p1 ∨ 50 < s.p2)
      | none => false) = false) :
    Matches.update_match p u st now
      = (⟨200, none⟩,
         Matches.setDoc st cat
          { Matches.getDoc st cat with
            «matches» := updateFirst (fun x => x.id = mid)
              (fun _ => Matches.applyUpdate m p u)
              (Matches.getDoc st cat).«matches»,
            updatedAt := some now,
            version := some ((Matches.getDoc st cat).version.getD 1 + 1) }) := by
  simp only [Matches.update_match, hid, hcat, hfind, hp12, hstatus, hsets,
    if_false, ite_false, if_true, ite_true, not_false_eq_true,
    Bool.false_eq_true, reduceIte]

/- ===== Version/timestamp behaviour of the remaining writers (C4) ===== -/

theorem create_match_version_bump
    (p : Matches.CreatePayload) (u : AuthUser) (st : MatchesStore)
    (now : String)
    (hu : u.role = "admin")
    (hp1 : p.player1 ≠ "") (hp2 : p.player2 ≠ "")
    (hpne : p.player1 ≠ p.player2)
    (hcat : p.category = "man" ∨ p.category = "woman")
    (htype : p.type = "group" ∨ p.type = "elimination")
    (hstatus : p.status = "pending" ∨ p.status = "scheduled"
      ∨ p.status = "in_progress" ∨ p.status = "final")
    (hgroup : ¬ (p.type = "group" ∧ truthy p.group = false))
    (hround : ¬ (p.type = "elimination" ∧ Matches.truthyInt p.round = false))
    (hsets : (p.sets.any
      (fun s => s.p1 < 0 ∨ s.p2 < 0 ∨ 50 < s.p1 ∨ 50 < s.p2)) = false) :
    (Matches.create_match p (some u) st now).1.code = 201
  ∧ (Matches.getDoc (Matches.create_match p (some u) st now).2
      p.category).version
      = some ((Matches.getDoc st p.category).version.getD 1 + 1)
  ∧ (Matches.getDoc (Matches.create_match p (some u) st now).2
      p.category).updatedAt = some now := by
  have h0 : ¬ (p.player1 = "" ∨ p.player2 = "") := by simp [hp1, hp2]
  have h1 : ¬ ¬ (p.category = "man" ∨ p.category = "woman") :=
    not_not_intro hcat
  have h2 : ¬ ¬ (p.type = "group" ∨ p.type = "elimination") :=
    not_not_intro htype
  have h3 : ¬ ¬ (p.status = "pending" ∨ p.status = "scheduled"
      ∨ p.status = "in_progress" ∨ p.status = "final") :=
    not_not_intro hstatus
  have hrole : (u.role ≠ "admin") = False := by simp [hu]
  simp only [Matches.create_match, hrole, h0, h1, h2, h3, hgroup, hround,
    hsets, hpne, if_false, ite_false, if_true, ite_true, not_false_eq_true,
    Bool.false_eq_true, reduceIte, ne_eq, getDoc_setDoc]
  exact ⟨trivial, trivial, trivial⟩

theorem delete_match_version_bump
    (p : Matches.DeletePayload) (u : AuthUser) (st : MatchesStore)
    (now : String) (mid : Int) (cat : String) (m : MatchG)
    (hu : u.role = "admin")
    (hid : p.id = some mid)
    (hcat : ¬ (p.category ≠ ""
      ∧ ¬ (p.category = "man" ∨ p.category = "woman")))
    (hfind : Matches.findInCats st
        (if p.category ≠ "" then [p.category] else ["man", "woman"]) mid
      = some (cat, m)) :
    (Matches.delete_match p (some u) st now).1.code = 200
  ∧ (Matches.getDoc (Matches.delete_match p (some u) st now).2 cat).version
      = some ((Matches.getDoc st cat).version.getD 1 + 1)
  ∧ (Matches.getDoc (Matches.delete_match p (some u) st now).2
      cat).updatedAt = some now := by
  have hrole : (u.role ≠ "admin") = False := by simp [hu]
  simp only [Matches.delete_match, hrole, hid, hcat, hfind, if_false,
    ite_false, if_true, ite_true, not_false_eq_true, Bool.false_eq_true,
    reduceIte, ne_eq, getDoc_setDoc]
  exact ⟨trivial, trivial, trivial⟩

theorem compute_standings_version_one
    (category : String) (authUser : Option AuthUser)
    (accounts : List Account) (matchList : List MatchG)
    (old : StandingsDoc) (now : String) :
    (Standings.compute_standings category authUser accounts matchList old
        now).1.code = 200 →
    (Standings.compute_standings category authUser accounts matchList old
        now).2.version = 1
    ∧ (Standings.compute_standings category authUser accounts matchList old
        now).2.updatedAt = now := by
  unfold Standings.compute_standings
  cases authUser with
  | none => simp
  | some u =>
    by_cases h1 : u.role ≠ "admin"
    · simp [h1]
    · by_cases h2 : ¬ (category = "man" ∨ category = "woman")
      · simp [h1, h2]
      · by_cases h3 :
          Standings._get_all_players_in_category accounts category = []
        · simp [h1, h2, h3]
        · simp [h1, h2, h3]


/- ===== C7: wrong set count is rejected before any write ===== -/

/-- Claim C7. A score update whose `sets` list does not have exactly 5
elements is rejected with a 400 invalid-input error by both score-update
handlers, and the store is returned unchanged: the rejection happens
before any write. -/
theorem c7_wrong_set_count_rejected_before_write :
    (∀ (p : Matches.ScorePayloadG) (u : AuthUser) (st : MatchesStore)
        (now : String), p.sets.length ≠ 5 →
      (Matches.update_score p (some u) st now).1.code = 400
      ∧ (Matches.update_score p (some u) st now).2 = st)
  ∧ (∀ (p : Bracket.ScorePayloadE) (u : AuthUser) (st : BracketStore)
        (now : String), p.sets.length ≠ 5 →
      (Bracket.update_score p (some u) st now).1.code = 400
      ∧ (Bracket.update_score p (some u) st now).2 = st) := by
  constructor
  · intro p u st now hlen
    by_cases h1 : ¬ (p.category = "man" ∨ p.category = "woman")
    · constructor <;> simp [Matches.update_score, h1]
    · by_cases h2 : ¬ (p.status = "scheduled" ∨ p.status = "in_progress"
        ∨ p.status = "final")
      · constructor <;> simp [Matches.update_score, h1, h2]
      · have h3 : ¬ (p.matchId ≠ 0 ∧ p.sets.length = 5) :=
          fun hh => hlen hh.2
        constructor <;> simp [Matches.update_score, h1, h2, h3]
  · intro p u st now hlen
    by_cases h1 : ¬ (p.category = "man" ∨ p.category = "woman")
    · constructor <;> simp [Bracket.update_score, h1]
    · by_cases h2 : ¬ (p.status = "scheduled" ∨ p.status = "in_progress"
        ∨ p.status = "final")
      · constructor <;> simp [Bracket.update_score, h1, h2]
      · have h3 : ¬ (p.matchId ≠ "" ∧ p.sets.length = 5) :=
          fun hh => hlen hh.2
        constructor <;> simp [Bracket.update_score, h1, h2, h3]

/-- Witness for C7: a 4-set update on a concrete store of one match is
rejected with 400 and the store is untouched. -/
theorem c7_wrong_set_count_rejected_before_write_witness :
    ((⟨"man", 1, [⟨11, 0⟩, ⟨11, 0⟩, ⟨8, 11⟩, ⟨11, 9⟩], "final"⟩ :
        Matches.ScorePayloadG).sets.length ≠ 5)
  ∧ ((Matches.update_score
        ⟨"man", 1, [⟨11, 0⟩, ⟨11, 0⟩, ⟨8, 11⟩, ⟨11, 9⟩], "final"⟩
        (some { sub := "adm", role := "admin" })
        { man := ⟨[{ id := 1, type := "group", p1 := "a", p2 := "b" }],
            some "t0", some 3⟩,
          woman := ⟨[], none, none⟩ } "t1").1.code = 400
    ∧ (Matches.update_score
        ⟨"man", 1, [⟨11, 0⟩, ⟨11, 0⟩, ⟨8, 11⟩, ⟨11, 9⟩], "final"⟩
        (some { sub := "adm", role := "admin" })
        { man := ⟨[{ id := 1, type := "group", p1 := "a", p2 := "b" }],
            some "t0", some 3⟩,
          woman := ⟨[], none, none⟩ } "t1").2
      = { man := ⟨[{ id := 1, type := "group", p1 := "a", p2 := "b" }],
            some "t0", some 3⟩,
          woman := ⟨[], none, none⟩ }) :=
  ⟨by decide,
    c7_wrong_set_count_rejected_before_write.1
      ⟨"man", 1, [⟨11, 0⟩, ⟨11, 0⟩, ⟨8, 11⟩, ⟨11, 9⟩], "final"⟩
      { sub := "adm", role := "admin" }
      { man := ⟨[{ id := 1, type := "group", p1 := "a", p2 := "b" }],
          some "t0", some 3⟩,
        woman := ⟨[], none, none⟩ } "t1" (by decide)⟩

/- ===== C8: missing downstream match — propagation skipped silently ===== -/

/-- Claim C8. When a score update finalises a match that carries an
`advancesTo` reference and a winner, but the referenced downstream match
cannot be located in the store, the propagation step is skipped silently
and the primary score write still succeeds: the response is 200 and the
store receives exactly the primary write (both in `matches.py` and in
`bracket.py`). -/
theorem c8_missing_downstream_skipped_write_succeeds :
    (∀ (p : Matches.ScorePayloadG) (u : AuthUser) (st : MatchesStore)
        (now : String) (m : MatchG) (adv : AdvRefG) (w : String),
      u.role = "admin" →
      (p.category = "man" ∨ p.category = "woman") →
      p.status = "final" →
      p.matchId ≠ 0 → p.sets.length = 5 →
      (Matches.getDoc st p.category).«matches».find?
          (fun x => x.id = p.matchId) = some m →
      (∀ s ∈ p.sets, 0 ≤ s.p1 ∧ 0 ≤ s.p2 ∧ s.p1 ≤ 50 ∧ s.p2 ≤ 50) →
      m.type = "elimination" →
      m.advancesTo = some adv →
      Matches.matchWinner m p.sets = some w → w ≠ "" →
      (∀ x ∈ (Matches.getDoc st p.category).«matches»,
        x.id ≠ adv.matchId) →
      (Matches.update_score p (some u) st now).1.code = 200
      ∧ (Matches.update_score p (some u) st now).2
          = Matches.setDoc st p.category
              { Matches.getDoc st p.category with
                «matches» := updateFirst (fun x => x.id = p.matchId)
                  (fun _ => Matches.appliedScore m p u)
                  (Matches.getDoc st p.category).«matches»,
                updatedAt := some now })
  ∧ (∀ (p : Bracket.ScorePayloadE) (u : AuthUser) (st : BracketStore)
        (now : String) (m : MatchE) (adv : AdvRefE) (w : String),
      u.role = "admin" →
      (p.category = "man" ∨ p.category = "woman") →
      p.status = "final" →
      p.matchId ≠ "" → p.sets.length = 5 →
      (Bracket.getElim st p.category).«matches».find?
          (fun x => x.id = p.matchId) = some m →
      (∀ s ∈ p.sets, 0 ≤ s.p1 ∧ 0 ≤ s.p2 ∧ s.p1 ≤ 50 ∧ s.p2 ≤ 50) →
      m.advancesTo = some adv →
      Bracket.matchWinnerE m p.sets = some w → w ≠ "" →
      (∀ x ∈ (Bracket.getElim st p.category).«matches»,
        x.id ≠ adv.matchId) →
      (Bracket.update_score p (some u) st now).1.code = 200
      ∧ (Bracket.update_score p (some u) st now).2
          = Bracket.setElim st p.category
              { Bracket.getElim st p.category with
                «matches» := updateFirst (fun x => x.id = p.matchId)
                  (fun _ => Bracket.appliedScoreE m p u)
                  (Bracket.getElim st p.category).«matches»,
                updatedAt := some now }) := by
  constructor
  · intro p u st now m adv w hu hcat hstatus hid hlen hfind hrange htype
      hadv hw hwne hmiss
    rw [matches_update_score_elim_missing_eq p u st now m adv w hu hcat
      (Or.inr (Or.inr hstatus)) hid hlen hfind hrange htype hadv hw hwne
      hmiss]
    exact ⟨rfl, rfl⟩
  · intro p u st now m adv w hu hcat hstatus hid hlen hfind hrange
      hadv hw hwne hmiss
    rw [bracket_update_score_missing_eq p u st now m adv w hu hcat
      (Or.inr (Or.inr hstatus)) hid hlen hfind hrange hadv hw hwne hmiss]
    exact ⟨rfl, rfl⟩

/-- Concrete fixtures for the C8 witness: an elimination match whose
`advancesTo` names id 99, absent from the store. -/
def c8m : MatchG :=
  { id := 1, type := "elimination", p1 := "a", p2 := "b",
    round := some 1, advancesTo := some ⟨99, "p1"⟩, status := "scheduled" }

/-- C8 witness payload: five sets, three of them valid wins for p1. -/
def c8p : Matches.ScorePayloadG :=
  ⟨"man", 1, [⟨11, 0⟩, ⟨11, 0⟩, ⟨11, 0⟩, ⟨0, 0⟩, ⟨0, 0⟩], "final"⟩

/-- C8 witness identity. -/
def c8u : AuthUser := { sub := "adm", role := "admin" }

/-- C8 witness store. -/
def c8st : MatchesStore :=
  { man := ⟨[c8m], some "t0", some 1⟩, woman := ⟨[], none, none⟩ }

/-- Witness for C8 at a concrete elimination match whose `advancesTo`
names an id (99) absent from the store. -/
theorem c8_missing_downstream_skipped_write_succeeds_witness :
    (Matches.matchWinner c8m c8p.sets = some "a")
  ∧ ((Matches.update_score c8p (some c8u) c8st "t1").1.code = 200
    ∧ (Matches.update_score c8p (some c8u) c8st "t1").2
      = Matches.setDoc c8st c8p.category
          { Matches.getDoc c8st c8p.category with
            «matches» := updateFirst (fun x => x.id = c8p.matchId)
              (fun _ => Matches.appliedScore c8m c8p c8u)
              (Matches.getDoc c8st c8p.category).«matches»,
            updatedAt := some "t1" }) :=
  ⟨by decide,
    c8_missing_downstream_skipped_write_succeeds.1 c8p c8u c8st "t1"
      c8m ⟨99, "p1"⟩ "a"
      rfl (Or.inl rfl) rfl (by decide) (by decide) (by decide) (by decide)
      rfl rfl (by decide) (by decide) (by decide)⟩


/- ===== C3: winner validity across the match-writing operations ===== -/

/-- Claim C3, amended. A score update always persists a `winner` that is
null or equal to the written match's own `p1`/`p2` (so does advancement
propagation, which writes competitor slots, not `winner`); but
`update_match` (and `create_match`) persist the caller-supplied `winner`
without validating it against `p1`/`p2`, so the invariant is not enforced
by those write paths. -/
theorem c3_score_update_winner_is_p1_p2_or_null :
    (∀ (m : MatchG) (p : Matches.ScorePayloadG) (u : AuthUser),
      (Matches.appliedScore m p u).winner = none
      ∨ (Matches.appliedScore m p u).winner
          = some (Matches.appliedScore m p u).p1
      ∨ (Matches.appliedScore m p u).winner
          = some (Matches.appliedScore m p u).p2)
  ∧ (∀ (p : Matches.ScorePayloadG) (u : AuthUser) (st : MatchesStore)
        (now : String) (m : MatchG),
      u.role = "admin" →
      (p.category = "man" ∨ p.category = "woman") →
      (p.status = "scheduled" ∨ p.status = "in_progress"
        ∨ p.status = "final") →
      p.matchId ≠ 0 → p.sets.length = 5 →
      (Matches.getDoc st p.category).«matches».find?
          (fun x => x.id = p.matchId) = some m →
      (∀ s ∈ p.sets, 0 ≤ s.p1 ∧ 0 ≤ s.p2 ∧ s.p1 ≤ 50 ∧ s.p2 ≤ 50) →
      m.type ≠ "elimination" →
      Matches.update_score p (some u) st now
        = (⟨200, none⟩,
           Matches.setDoc st p.category
            { Matches.getDoc st p.category with
              «matches» := updateFirst (fun x => x.id = p.matchId)
                (fun _ => Matches.appliedScore m p u)
                (Matches.getDoc st p.category).«matches»,
              updatedAt := some now })) := by
  constructor
  · intro m p u
    have h := matchWinner_cases m p.sets
    simpa [Matches.appliedScore] using h
  · intro p u st now m hu hcat hstatus hid hlen hfind hrange htype
    exact matches_update_score_group_eq p u st now m hu hcat hstatus hid
      hlen hfind hrange htype

/-- Concrete fixtures for the C3 witness. -/
def c3m : MatchG :=
  { id := 1, type := "group", p1 := "a", p2 := "b", group := some "G1",
    status := "scheduled" }

/-- C3 witness payload. -/
def c3p : Matches.ScorePayloadG :=
  ⟨"man", 1, [⟨11, 0⟩, ⟨11, 0⟩, ⟨11, 0⟩, ⟨0, 0⟩, ⟨0, 0⟩], "final"⟩

/-- C3 witness identity. -/
def c3u : AuthUser := { sub := "adm", role := "admin" }

/-- C3 witness store. -/
def c3st : MatchesStore :=
  { man := ⟨[c3m], some "t0", some 1⟩, woman := ⟨[], none, none⟩ }

/-- Witness for C3's amended statement at a concrete group match. -/
theorem c3_score_update_winner_is_p1_p2_or_null_witness :
    ((Matches.appliedScore c3m c3p c3u).winner = none
      ∨ (Matches.appliedScore c3m c3p c3u).winner
          = some (Matches.appliedScore c3m c3p c3u).p1
      ∨ (Matches.appliedScore c3m c3p c3u).winner
          = some (Matches.appliedScore c3m c3p c3u).p2)
  ∧ Matches.update_score c3p (some c3u) c3st "t1"
      = (⟨200, none⟩,
         Matches.setDoc c3st c3p.category
          { Matches.getDoc c3st c3p.category with
            «matches» := updateFirst (fun x => x.id = c3p.matchId)
              (fun _ => Matches.appliedScore c3m c3p c3u)
              (Matches.getDoc c3st c3p.category).«matches»,
            updatedAt := some "t1" }) :=
  ⟨c3_score_update_winner_is_p1_p2_or_null.1 c3m c3p c3u,
    c3_score_update_winner_is_p1_p2_or_null.2 c3p c3u c3st "t1" c3m
      rfl (Or.inl rfl) (Or.inr (Or.inr rfl)) (by decide) (by decide)
      (by decide) (by decide) (by decide)⟩

/-- Counterexample to C3. `update_match` persists a caller-supplied
`winner` (`"mallory"`) that matches neither competitor of the match, so
the claimed invariant fails for the match-update write path. -/
theorem c3_update_match_stores_unvalidated_winner :
    ((Matches.update_match
        { id := some 1, category := "man",
          winner := some (some "mallory") }
        { sub := "adm", role := "admin" } c3st "t1").1.code = 200)
  ∧ (∃ mm ∈ ((Matches.update_match
        { id := some 1, category := "man",
          winner := some (some "mallory") }
        { sub := "adm", role := "admin" } c3st "t1").2.man.«matches»),
      mm.winner = some "mallory" ∧ mm.p1 = "a" ∧ mm.p2 = "b"
      ∧ mm.winner ≠ some mm.p1 ∧ mm.winner ≠ some mm.p2
      ∧ mm.winner ≠ none) := by
  constructor <;> decide

/- ===== C4: version/timestamp bookkeeping of the writers ===== -/

/-- Claim C4, amended. Of the read-modify-write cycles, only
`create_match`, `update_match` and `delete_match` write back a version
strictly greater (by one) than the version read, together with a
refreshed timestamp.  `update_score` — on every successful path,
elimination propagation included — refreshes the timestamp but carries
the stored version over unchanged, and the standings recomputation
always writes the constant version 1 regardless of what was stored. -/
theorem c4_version_bump_only_in_match_crud :
    (∀ (p : Matches.ScorePayloadG) (u : AuthUser) (st : MatchesStore)
        (now : String) (m : MatchG),
      u.role = "admin" →
      (p.category = "man" ∨ p.category = "woman") →
      (p.status = "scheduled" ∨ p.status = "in_progress"
        ∨ p.status = "final") →
      p.matchId ≠ 0 → p.sets.length = 5 →
      (Matches.getDoc st p.category).«matches».find?
          (fun x => x.id = p.matchId) = some m →
      (∀ s ∈ p.sets, 0 ≤ s.p1 ∧ 0 ≤ s.p2 ∧ s.p1 ≤ 50 ∧ s.p2 ≤ 50) →
      (Matches.update_score p (some u) st now).1.code = 200
      ∧ (Matches.getDoc (Matches.update_score p (some u) st now).2
          p.category).version = (Matches.getDoc st p.category).version
      ∧ (Matches.getDoc (Matches.update_score p (some u) st now).2
          p.category).updatedAt = some now)
  ∧ (∀ (p : Matches.UpdatePayload) (u : AuthUser) (st : MatchesStore)
        (now : String) (mid : Int) (cat : String) (m : MatchG),
      p.id = some mid →
      ¬ (p.category ≠ "" ∧ ¬ (p.category = "man" ∨ p.category = "woman")) →
      Matches.findInCats st
          (if p.category ≠ "" then [p.category] else ["man", "woman"]) mid
        = some (cat, m) →
      ¬ (p.player1 ≠ "" ∧ p.player2 ≠ "" ∧ p.player1 = p.player2) →
      ¬ (p.status ≠ "" ∧ ¬ (p.status = "pending" ∨ p.status = "scheduled"
        ∨ p.status = "in_progress" ∨ p.status = "final")) →
      (match p.sets with
        | some ss => ss.any
            (fun s => s.p1 < 0 ∨ s.p2 < 0 ∨ 50 < s.p1 ∨ 50 < s.p2)
        | none => false) = false →
      (Matches.update_match p u st now).1.code = 200
      ∧ (Matches.getDoc (Matches.update_match p u st now).2 cat).version
          = some ((Matches.getDoc st cat).version.getD 1 + 1)
      ∧ (Matches.getDoc (Matches.update_match p u st now).2 cat).updatedAt
          = some now)
  ∧ (∀ (p : Matches.CreatePayload) (u : AuthUser) (st : MatchesStore)
        (now : String),
      u.role = "admin" →
      p.player1 ≠ "" → p.player2 ≠ "" → p.player1 ≠ p.player2 →
      (p.category = "man" ∨ p.category = "woman") →
      (p.type = "group" ∨ p.type = "elimination") →
      (p.status = "pending" ∨ p.status = "scheduled"
        ∨ p.status = "in_progress" ∨ p.status = "final") →
      ¬ (p.type = "group" ∧ truthy p.group = false) →
      ¬ (p.type = "elimination" ∧ Matches.truthyInt p.round = false) →
      (p.sets.any
        (fun s => s.p1 < 0 ∨ s.p2 < 0 ∨ 50 < s.p1 ∨ 50 < s.p2)) = false →
      (Matches.create_match p (some u) st now).1.code = 201
      ∧ (Matches.getDoc (Matches.create_match p (some u) st now).2
          p.category).version
          = some ((Matches.getDoc st p.category).version.getD 1 + 1)
      ∧ (Matches.getDoc (Matches.create_match p (some u) st now).2
          p.category).updatedAt = some now)
  ∧ (∀ (p : Matches.DeletePayload) (u : AuthUser) (st : MatchesStore)
        (now : String) (mid : Int) (cat : String) (m : MatchG),
      u.role = "admin" →
      p.id = some mid →
      ¬ (p.category ≠ "" ∧ ¬ (p.category = "man" ∨ p.category = "woman")) →
      Matches.findInCats st
          (if p.category ≠ "" then [p.category] else ["man", "woman"]) mid
        = some (cat, m) →
      (Matches.delete_match p (some u) st now).1.code = 200
      ∧ (Matches.getDoc (Matches.delete_match p (some u) st now).2
          cat).version = some ((Matches.getDoc st cat).version.getD 1 + 1)
      ∧ (Matches.getDoc (Matches.delete_match p (some u) st now).2
          cat).updatedAt = some now)
  ∧ (∀ (category : String) (authUser : Option AuthUser)
        (accounts : List Account) (matchList : List MatchG)
        (old : StandingsDoc) (now : String),
      (Standings.compute_standings category authUser accounts matchList old
          now).1.code = 200 →
      (Standings.compute_standings category authUser accounts matchList old
          now).2.version = 1
      ∧ (Standings.compute_standings category authUser accounts matchList
          old now).2.updatedAt = now) := by
  refine ⟨?_, ?_, ?_, ?_, ?_⟩
  · intro p u st now m hu hcat hstatus hid hlen hfind hrange
    exact matches_update_score_version_preserved p u st now m hu hcat
      hstatus hid hlen hfind hrange
  · intro p u st now mid cat m hid hcat hfind hp12 hstatus hsets
    rw [update_match_success_eq p u st now mid cat m hid hcat hfind hp12
      hstatus hsets]
    rw [getDoc_setDoc]
    exact ⟨rfl, rfl, rfl⟩
  · intro p u st now hu hp1 hp2 hpne hcat htype hstatus hgroup hround hsets
    exact create_match_version_bump p u st now hu hp1 hp2 hpne hcat htype
      hstatus hgroup hround hsets
  · intro p u st now mid cat m hu hid hcat hfind
    exact delete_match_version_bump p u st now mid cat m hu hid hcat hfind
  · intro category authUser accounts matchList old now h
    exact compute_standings_version_one category authUser accounts
      matchList old now h

/-- Witness for C4's amended statement, instantiating each of its five
clauses on small concrete stores. -/
theorem c4_version_bump_only_in_match_crud_witness :
    ((Matches.update_score c8p (some c8u) c8st "t1").1.code = 200
      ∧ (Matches.getDoc (Matches.update_score c8p (some c8u) c8st "t1").2
          c8p.category).version = (Matches.getDoc c8st c8p.category).version
      ∧ (Matches.getDoc (Matches.update_score c8p (some c8u) c8st "t1").2
          c8p.category).updatedAt = some "t1")
  ∧ ((Matches.update_match { id := some 1, category := "man" } c3u c3st
        "t1").1.code = 200
      ∧ (Matches.getDoc (Matches.update_match
          { id := some 1, category := "man" } c3u c3st "t1").2
          "man").version
          = some ((Matches.getDoc c3st "man").version.getD 1 + 1))
  ∧ ((Matches.create_match
        { player1 := "x", player2 := "y", category := "man",
          group := some "G1" } (some c3u) c3st "t1").1.code = 201
      ∧ (Matches.getDoc (Matches.create_match
          { player1 := "x", player2 := "y", category := "man",
            group := some "G1" } (some c3u) c3st "t1").2 "man").version
          = some ((Matches.getDoc c3st "man").version.getD 1 + 1))
  ∧ ((Matches.delete_match { id := some 1, category := "man" } (some c3u)
        c3st "t1").1.code = 200
      ∧ (Matches.getDoc (Matches.delete_match
          { id := some 1, category := "man" } (some c3u) c3st "t1").2
          "man").version
          = some ((Matches.getDoc c3st "man").version.getD 1 + 1))
  ∧ ((Standings.compute_standings "man" (some c3u) [] [] ⟨[], "t0", 7⟩
        "t1").2.version = 1) := by
  refine ⟨?_, ?_, ?_, ?_, ?_⟩
  · exact c4_version_bump_only_in_match_crud.1 c8p c8u c8st "t1" c8m
      rfl (Or.inl rfl) (Or.inr (Or.inr rfl)) (by decide) (by decide)
      (by decide) (by decide)
  · have h := c4_version_bump_only_in_match_crud.2.1
      { id := some 1, category := "man" } c3u c3st "t1" 1 "man" c3m
      rfl (by decide) (by decide) (by decide) (by decide) (by decide)
    exact ⟨h.1, h.2.1⟩
  · have h := c4_version_bump_only_in_match_crud.2.2.1
      { player1 := "x", player2 := "y", category := "man",
        group := some "G1" } c3u c3st "t1"
      rfl (by decide) (by decide) (by decide) (Or.inl rfl) (Or.inl rfl)
      (Or.inl rfl) (by decide) (by decide) (by decide)
    exact ⟨h.1, h.2.1⟩
  · have h := c4_version_bump_only_in_match_crud.2.2.2.1
      { id := some 1, category := "man" } c3u c3st "t1" 1 "man" c3m
      rfl rfl (by decide) (by decide)
    exact ⟨h.1, h.2.1⟩
  · exact (c4_version_bump_only_in_match_crud.2.2.2.2 "man" (some c3u) []
      [] ⟨[], "t0", 7⟩ "t1" (by decide)).1

/-- Counterexample to C4. The standings recomputation — one of the
claimed read/modify/write cycles — persists version 1 over a stored
version 7: the persisted version is not strictly greater than the stored
one (and `update_score` likewise carries the stored version over
unchanged). -/
theorem c4_standings_recompute_writes_version_one :
    ((Standings.compute_standings "man"
        (some { sub := "adm", role := "admin" }) [] [] ⟨[], "t0", 7⟩
        "t1").1.code = 200)
  ∧ ((Standings.compute_standings "man"
        (some { sub := "adm", role := "admin" }) [] [] ⟨[], "t0", 7⟩
        "t1").2.version = 1)
  ∧ ((⟨[], "t0", 7⟩ : StandingsDoc).version = 7)
  ∧ ¬ ((7 : Int) < 1) := by
  refine ⟨by decide, by decide, by decide, by decide⟩

end PingPong
